import Mathlib

/-!
Shallow embedding of the NES-Emulator 6502 core (src/bus.rs, src/cpu6502.rs,
src/instructions/*.rs) and verification of its specification claims.

Conventions of the embedding:
* Machine integers (`u8`, `u16`, `u64`) are modelled as `Nat`.  Wrapping
  operations (`wrapping_add`, `wrapping_sub`, `as i8`, `as u16` casts) are
  modelled with explicit `% 256` / `% 65536` arithmetic.  Rust's plain `+`
  on `u16` carries an overflow check (a debug assertion aborts on overflow),
  so it is modelled as a checked addition returning `Option Nat`.
* Fallible computations return `Option`: `none` models a Rust
  `panic!` / `todo!` / `expect` failure or an out-of-bounds index.
* The opcode table (`phf_map` in the source) is modelled as an association
  list searched by key; the per-entry handler function pointer is modelled
  by a tag (`InstrHandler`) dispatched by `run_handler`, one dispatch arm
  per handler function of the source.
-/

/-- Checked 16-bit addition: Rust `+` on `u16`, which faults on overflow
(it does not wrap). -/
def u16_checked_add (a b : Nat) : Option Nat :=
  if a + b ≤ 0xFFFF then some (a + b) else none

/-- Little-endian combination `u16::from_le_bytes([lo, hi])`. -/
def u16_from_le (lo hi : Nat) : Nat := lo + 256 * hi

/-- Truncating cast `as i8` followed by the sign test `>= 0`:
a byte is non-negative as a signed 8-bit integer iff its low 8 bits are
below 128. -/
def i8_nonneg (b : Nat) : Bool := b % 256 < 128

/-- Sign extension of an `i8` (given by its `u8` bit pattern) to `u16`,
i.e. the composite Rust cast `(v as i8) as u16`. -/
def i8_as_u16 (v : Nat) : Nat :=
  if v % 256 < 128 then v % 256 else 0xFF00 + v % 256

/-- Bitwise `u8` complement `!value`. -/
def u8_not (v : Nat) : Nat := 255 - v % 256

/-- ROM as delivered by the cartridge parser (`rom.rs`); only the PRG bytes
are reachable from the bus. -/
structure Rom where
  prg_rom : List Nat

/-- Address bus state (`bus.rs`): the 2 KiB internal RAM (a map from the
mirrored index `addr &&& 0x7FF` to the stored byte) and the cartridge ROM. -/
structure Bus where
  internal_ram : Nat → Nat
  rom : Rom

/-- Embedding of `Bus::read_u8`.  The match arms of the source, in order:
`0x0000..=0x1FFF` reads mirrored RAM; `0x2000..=0x3FFF` executes
`todo!("PPU is not supported yet")`, which panics (modelled `none`);
`0x8000..=0xFFFF` reads PRG-ROM with the NROM 16K mirror (an out-of-range
index would panic, modelled by `List.getElem?`); every other address prints
a message and returns 0. -/
def Bus.read_u8 (b : Bus) (addr : Nat) : Option Nat :=
  if addr ≤ 0x1FFF then
    some (b.internal_ram (addr &&& 0x07FF))
  else if addr ≤ 0x3FFF then
    none
  else if 0x8000 ≤ addr ∧ addr ≤ 0xFFFF then
    let a := addr - 0x8000
    let a := if b.rom.prg_rom.length = 16384 ∧ 16384 ≤ a then a % 16384 else a
    b.rom.prg_rom[a]?
  else
    some 0

/-- Embedding of `Bus::write_u8`.  `0x0000..=0x1FFF` writes mirrored RAM;
`0x2000..=0x3FFF` executes `todo!(...)`, which panics (modelled `none`);
`0x8000..=0xFFFF` logs and ignores the write; every other address logs and
ignores the write. -/
def Bus.write_u8 (b : Bus) (addr data : Nat) : Option Bus :=
  if addr ≤ 0x1FFF then
    some { b with internal_ram := fun i => if i = (addr &&& 0x07FF) then data else b.internal_ram i }
  else if addr ≤ 0x3FFF then
    none
  else
    some b

/-- CPU state (`cpu6502.rs`).  Note: the struct has no `halted` field. -/
structure CPU where
  program_counter : Nat
  stack_pointer : Nat
  accumulator : Nat
  x_register : Nat
  y_register : Nat
  status_register : Nat
  bus : Bus
  cycles : Nat

/-- Status-register flags; the enum values are the bit positions. -/
inductive StatusFlag where
  | Carry
  | Zero
  | InterruptDisable
  | DecimalMode
  | BreakCommand
  | Unused
  | Overflow
  | Negative
deriving DecidableEq

/-- Numeric value of a `StatusFlag` (the `flag as u8` cast). -/
def StatusFlag.bit : StatusFlag → Nat
  | .Carry => 0
  | .Zero => 1
  | .InterruptDisable => 2
  | .DecimalMode => 3
  | .BreakCommand => 4
  | .Unused => 5
  | .Overflow => 6
  | .Negative => 7

/-- Embedding of `CPU::set_status_flag`: `|=` a single bit or `&=` its
`u8` complement. -/
def CPU.set_status_flag (cpu : CPU) (flag : StatusFlag) (value : Bool) : CPU :=
  if value then
    { cpu with status_register := cpu.status_register ||| (1 <<< flag.bit) }
  else
    { cpu with status_register := cpu.status_register &&& (0xFF ^^^ (1 <<< flag.bit)) }

/-- Embedding of `CPU::get_status_flag`. -/
def CPU.get_status_flag (cpu : CPU) (flag : StatusFlag) : Bool :=
  (cpu.status_register &&& (1 <<< flag.bit)) != 0

/-- Embedding of `CPU::read_u8` (pass-through to the bus). -/
def CPU.read_u8 (cpu : CPU) (addr : Nat) : Option Nat :=
  cpu.bus.read_u8 addr

/-- Embedding of `CPU::write_u8` (pass-through to the bus). -/
def CPU.write_u8 (cpu : CPU) (addr value : Nat) : Option CPU :=
  (cpu.bus.write_u8 addr value).map fun b => { cpu with bus := b }

/-- Embedding of `CPU::read_u16`: low byte at `addr`, high byte at
`addr + 1`, where `addr + 1` is a checked `u16` addition. -/
def CPU.read_u16 (cpu : CPU) (addr : Nat) : Option Nat := do
  let lo ← cpu.read_u8 addr
  let a1 ← u16_checked_add addr 1
  let hi ← cpu.read_u8 a1
  some (u16_from_le lo hi)

/-- Embedding of `CPU::write_u16`: low byte to `addr`, high byte to
`addr + 1` (checked `u16` addition). -/
def CPU.write_u16 (cpu : CPU) (addr value : Nat) : Option CPU := do
  let lo := value % 256
  let hi := value / 256 % 256
  let c1 ← cpu.write_u8 addr lo
  let a1 ← u16_checked_add addr 1
  c1.write_u8 a1 hi

/-- Test bus used for concrete evaluations: zeroed RAM and a one-byte
PRG-ROM, which suffices for the regions the witnesses touch. -/
def cexBus : Bus :=
  { internal_ram := fun _ => 0, rom := { prg_rom := [0xEA] } }

/-- PRG-ROM of exactly 16384 bytes whose byte 5 is $AB. -/
def mir16prg : List Nat := List.replicate 5 0 ++ 0xAB :: List.replicate 16378 0

/-- Bus over a 16 KiB cartridge, used to witness the NROM mirror. -/
def mir16Bus : Bus :=
  { internal_ram := fun _ => 0, rom := { prg_rom := mir16prg } }

/-- Embedding of `new_cpu`: the cold-start register values. -/
def new_cpu (bus : Bus) : CPU :=
  { program_counter := 0x0000
    stack_pointer := 0xFF
    accumulator := 0x00
    x_register := 0x00
    y_register := 0x00
    status_register := 0x24
    bus := bus
    cycles := 0 }

/-- Concrete cold-start CPU over the test bus. -/
def cexCpu : CPU := new_cpu cexBus

/-- Embedding of `CPU::push_u8`: write at `$0100 + SP`, then decrement SP
with 8-bit wrap. -/
def CPU.push_u8 (cpu : CPU) (value : Nat) : Option CPU :=
  (cpu.write_u8 (0x0100 + cpu.stack_pointer) value).map fun c =>
    { c with stack_pointer := (c.stack_pointer + 255) % 256 }

/-- Embedding of `CPU::push_u16`: push the high byte first, then the low
byte. -/
def CPU.push_u16 (cpu : CPU) (value : Nat) : Option CPU := do
  let lo := value % 256
  let hi := value / 256 % 256
  let c1 ← cpu.push_u8 hi
  c1.push_u8 lo

/-- Embedding of `CPU::pop_u8`: increment SP with 8-bit wrap, then read at
`$0100 + SP`. -/
def CPU.pop_u8 (cpu : CPU) : Option (Nat × CPU) := do
  let sp := (cpu.stack_pointer + 1) % 256
  let v ← cpu.read_u8 (0x0100 + sp)
  some (v, { cpu with stack_pointer := sp })

/-- Embedding of `CPU::pop_u16`: pop the low byte, then the high byte, and
combine little-endian. -/
def CPU.pop_u16 (cpu : CPU) : Option (Nat × CPU) := do
  let (lo, c1) ← cpu.pop_u8
  let (hi, c2) ← c1.pop_u8
  some (u16_from_le lo hi, c2)

/-- Embedding of `CPU::page_crossed`: the two addresses differ in their
high byte. -/
def CPU.page_crossed (_cpu : CPU) (addr1 addr2 : Nat) : Bool :=
  (addr1 &&& 0xFF00) != (addr2 &&& 0xFF00)

/-- The 13 addressing modes of `cpu6502.rs`. -/
inductive AddressingMode where
  | Absolute
  | AbsoluteX
  | AbsoluteY
  | Accumulator
  | Immediate
  | Implicit
  | Indirect
  | IndirectX
  | IndirectY
  | Relative
  | ZeroPage
  | ZeroPageX
  | ZeroPageY
deriving DecidableEq

/-- Embedding of `CPU::get_operand_address`: effective address and
page-cross signal for each mode.  `wrapping_add` on `u16` is `% 65536`, on
`u8` it is `% 256`; the plain `+ 1` in the Indirect arm is a checked `u16`
addition.  The `Accumulator` and `Implicit` arms panic in the source. -/
def CPU.get_operand_address (cpu : CPU) (mode : AddressingMode) (addr : Nat) :
    Option (Nat × Bool) :=
  match mode with
  | .Absolute => do
      let a ← cpu.read_u16 addr
      some (a, false)
  | .AbsoluteX => do
      let base ← cpu.read_u16 addr
      let final_addr := (base + cpu.x_register) % 65536
      some (final_addr, cpu.page_crossed base final_addr)
  | .AbsoluteY => do
      let base ← cpu.read_u16 addr
      let final_addr := (base + cpu.y_register) % 65536
      some (final_addr, cpu.page_crossed base final_addr)
  | .Immediate => some (addr, false)
  | .Indirect => do
      let ptr ← cpu.read_u16 addr
      let lo ← cpu.read_u8 ptr
      let hi ←
        if ptr &&& 0x00FF = 0x00FF then
          cpu.read_u8 (ptr &&& 0xFF00)
        else do
          let a1 ← u16_checked_add ptr 1
          cpu.read_u8 a1
      some (u16_from_le lo hi, false)
  | .IndirectX => do
      let base ← cpu.read_u8 addr
      let ptr := (base + cpu.x_register) % 256
      let lo ← cpu.read_u8 ptr
      let hi ← cpu.read_u8 ((ptr + 1) % 256)
      some (u16_from_le lo hi, false)
  | .IndirectY => do
      let base ← cpu.read_u8 addr
      let lo ← cpu.read_u8 base
      let hi ← cpu.read_u8 ((base + 1) % 256)
      let base_addr := u16_from_le lo hi
      let final_addr := (base_addr + cpu.y_register) % 65536
      some (final_addr, cpu.page_crossed base_addr final_addr)
  | .Relative => some (addr, false)
  | .ZeroPage => do
      let v ← cpu.read_u8 addr
      some (v, false)
  | .ZeroPageX => do
      let base ← cpu.read_u8 addr
      some ((base + cpu.x_register) % 256, false)
  | .ZeroPageY => do
      let base ← cpu.read_u8 addr
      some ((base + cpu.y_register) % 256, false)
  | .Accumulator => none
  | .Implicit => none

/-- Embedding of `CPU::branch`: if the condition holds, jump to
`(PC + 2) + signed offset` (both additions wrapping on `u16`) for one extra
cycle, plus another when the page of the target differs from the page of
`PC + 2`.  The handlers pass the raw operand byte; the `as i8 → as u16`
cast pair is `i8_as_u16`. -/
def CPU.branch (cpu : CPU) (condition : Bool) (offset : Nat) : CPU × Nat :=
  if condition then
    let pc_next := (cpu.program_counter + 2) % 65536
    let target_pc := (pc_next + i8_as_u16 offset) % 65536
    ({ cpu with program_counter := target_pc },
      1 + if cpu.page_crossed pc_next target_pc then 1 else 0)
  else
    (cpu, 0)

/-- Wrapping `u8` subtraction. -/
def u8_wrapping_sub (a b : Nat) : Nat := (a % 256 + 256 - b % 256) % 256

/-- Embedding of `CPU::handle_adc` (instructions/adc.rs). -/
def handle_adc (cpu : CPU) (opt_value _opt_address : Option Nat) :
    Option (CPU × Nat) := do
  let value ← opt_value
  let carry_in := if cpu.get_status_flag .Carry then 1 else 0
  let sum := cpu.accumulator + value + carry_in
  let result := sum % 256
  let c1 := cpu.set_status_flag .Carry (decide (0xFF < sum))
  let c2 := c1.set_status_flag .Zero (result == 0)
  let c3 := c2.set_status_flag .Negative ((result &&& 0x80) != 0)
  let overflow :=
    (i8_nonneg cpu.accumulator && i8_nonneg value && !(i8_nonneg result)) ||
    (!(i8_nonneg cpu.accumulator) && !(i8_nonneg value) && i8_nonneg result)
  let c4 := c3.set_status_flag .Overflow overflow
  some ({ c4 with accumulator := result }, 0)

/-- Embedding of `CPU::handle_sbc` (instructions/sbc.rs): ADC of the
bitwise complement of the operand. -/
def handle_sbc (cpu : CPU) (opt_value _opt_address : Option Nat) :
    Option (CPU × Nat) := do
  let value ← opt_value
  let inverted_value := u8_not value
  let carry_in := if cpu.get_status_flag .Carry then 1 else 0
  let sum := cpu.accumulator + inverted_value + carry_in
  let result := sum % 256
  let c1 := cpu.set_status_flag .Carry (decide (0xFF < sum))
  let c2 := c1.set_status_flag .Zero (result == 0)
  let c3 := c2.set_status_flag .Negative ((result &&& 0x80) != 0)
  let overflow :=
    (i8_nonneg cpu.accumulator && i8_nonneg inverted_value && !(i8_nonneg result)) ||
    (!(i8_nonneg cpu.accumulator) && !(i8_nonneg inverted_value) && i8_nonneg result)
  let c4 := c3.set_status_flag .Overflow overflow
  some ({ c4 with accumulator := result }, 0)

/-- Embedding of `CPU::handleAND` (instructions/and.rs). -/
def handle_and (cpu : CPU) (opt_value _opt_address : Option Nat) :
    Option (CPU × Nat) := do
  let value ← opt_value
  let result := cpu.accumulator &&& value
  let c1 := cpu.set_status_flag .Zero (result == 0)
  let c2 := c1.set_status_flag .Negative ((result &&& 0x80) != 0)
  some ({ c2 with accumulator := result }, 0)

/-- Embedding of `CPU::handle_ora` (instructions/ora.rs). -/
def handle_ora (cpu : CPU) (opt_value _opt_address : Option Nat) :
    Option (CPU × Nat) := do
  let value ← opt_value
  let c1 := { cpu with accumulator := cpu.accumulator ||| value }
  let c2 := c1.set_status_flag .Zero (c1.accumulator == 0)
  let c3 := c2.set_status_flag .Negative ((c1.accumulator &&& 0x80) != 0)
  some (c3, 0)

/-- Embedding of `CPU::handle_eor` (instructions/eor.rs). -/
def handle_eor (cpu : CPU) (opt_value _opt_address : Option Nat) :
    Option (CPU × Nat) := do
  let value ← opt_value
  let result := cpu.accumulator ^^^ value
  let c1 := { cpu with accumulator := result }
  let c2 := c1.set_status_flag .Zero (result == 0)
  let c3 := c2.set_status_flag .Negative ((result &&& 0x80) != 0)
  some (c3, 0)

/-- Embedding of `CPU::handle_asl` (instructions/asl.rs): shift left, write
back to memory when an address is present, else to the accumulator. -/
def handle_asl (cpu : CPU) (opt_value opt_address : Option Nat) :
    Option (CPU × Nat) := do
  let value ← opt_value
  let result := (value <<< 1) % 256
  let c1 := cpu.set_status_flag .Carry ((value &&& 0x80) != 0)
  let c2 := c1.set_status_flag .Zero (result == 0)
  let c3 := c2.set_status_flag .Negative ((result &&& 0x80) != 0)
  match opt_address with
  | some address => do
      let c4 ← c3.write_u8 address result
      some (c4, 0)
  | none => some ({ c3 with accumulator := result }, 0)

/-- Embedding of `CPU::handleLSR` (instructions/lsr.rs). -/
def handle_lsr (cpu : CPU) (opt_value opt_address : Option Nat) :
    Option (CPU × Nat) := do
  let value ← opt_value
  let c1 := cpu.set_status_flag .Carry ((value &&& 0x01) != 0)
  let result := value >>> 1
  let c2 := c1.set_status_flag .Zero (result == 0)
  let c3 := c2.set_status_flag .Negative ((result &&& 0x80) != 0)
  match opt_address with
  | some address => do
      let c4 ← c3.write_u8 address result
      some (c4, 0)
  | none => some ({ c3 with accumulator := result }, 0)

/-- Embedding of `CPU::handle_rol` (instructions/rol.rs). -/
def handle_rol (cpu : CPU) (opt_value opt_address : Option Nat) :
    Option (CPU × Nat) := do
  let value ← opt_value
  let old_carry := if cpu.get_status_flag .Carry then 1 else 0
  let c1 := cpu.set_status_flag .Carry ((value &&& 0x80) != 0)
  let result := ((value <<< 1) % 256) ||| old_carry
  let c2 := c1.set_status_flag .Zero (result == 0)
  let c3 := c2.set_status_flag .Negative ((result &&& 0x80) != 0)
  match opt_address with
  | some address => do
      let c4 ← c3.write_u8 address result
      some (c4, 0)
  | none => some ({ c3 with accumulator := result }, 0)

/-- Modelled from the spec: `handle_ror` — instructions/ror.rs is missing
from the sources; §4.5 gives `ROR: new = (value >> 1) | (old_C << 7),
C ← bit0`, updating N and Z, writing back to memory or the accumulator
like the other shifts. -/
def handle_ror (cpu : CPU) (opt_value opt_address : Option Nat) :
    Option (CPU × Nat) := do
  let value ← opt_value
  let old_carry := if cpu.get_status_flag .Carry then 1 else 0
  let c1 := cpu.set_status_flag .Carry ((value &&& 0x01) != 0)
  let result := (value % 256) >>> 1 ||| (old_carry <<< 7)
  let c2 := c1.set_status_flag .Zero (result == 0)
  let c3 := c2.set_status_flag .Negative ((result &&& 0x80) != 0)
  match opt_address with
  | some address => do
      let c4 ← c3.write_u8 address result
      some (c4, 0)
  | none => some ({ c3 with accumulator := result }, 0)

/-- Embedding of `CPU::handle_lda` (instructions/lda.rs). -/
def handle_lda (cpu : CPU) (opt_value _opt_address : Option Nat) :
    Option (CPU × Nat) := do
  let value ← opt_value
  let c1 := { cpu with accumulator := value }
  let c2 := c1.set_status_flag .Zero (c1.accumulator == 0)
  let c3 := c2.set_status_flag .Negative ((c1.accumulator &&& 0x80) != 0)
  some (c3, 0)

/-- Embedding of `CPU::handleLDX` (instructions/ldx.rs). -/
def handle_ldx (cpu : CPU) (opt_value _opt_address : Option Nat) :
    Option (CPU × Nat) := do
  let value ← opt_value
  let c1 := { cpu with x_register := value }
  let c2 := c1.set_status_flag .Zero (c1.x_register == 0)
  let c3 := c2.set_status_flag .Negative ((c1.x_register &&& 0x80) != 0)
  some (c3, 0)

/-- Embedding of `CPU::handle_ldy` (instructions/ldy.rs). -/
def handle_ldy (cpu : CPU) (opt_value _opt_address : Option Nat) :
    Option (CPU × Nat) := do
  let value ← opt_value
  let c1 := { cpu with y_register := value }
  let c2 := c1.set_status_flag .Zero (c1.y_register == 0)
  let c3 := c2.set_status_flag .Negative ((c1.y_register &&& 0x80) != 0)
  some (c3, 0)

/-- Embedding of `CPU::handle_sta` (instructions/sta.rs). -/
def handle_sta (cpu : CPU) (_opt_value opt_address : Option Nat) :
    Option (CPU × Nat) := do
  let address ← opt_address
  let c1 ← cpu.write_u8 address cpu.accumulator
  some (c1, 0)

/-- Modelled from the spec: `handle_stx` — instructions/stx.rs is missing
from the sources; §4.5: write the X register byte to the effective address,
never set flags. -/
def handle_stx (cpu : CPU) (_opt_value opt_address : Option Nat) :
    Option (CPU × Nat) := do
  let address ← opt_address
  let c1 ← cpu.write_u8 address cpu.x_register
  some (c1, 0)

/-- Embedding of `CPU::handleSTY` (instructions/sty.rs). -/
def handle_sty (cpu : CPU) (_opt_value opt_address : Option Nat) :
    Option (CPU × Nat) := do
  let address ← opt_address
  let c1 ← cpu.write_u8 address cpu.y_register
  some (c1, 0)

/-- Embedding of `CPU::handle_cmp` (instructions/cmp.rs). -/
def handle_cmp (cpu : CPU) (opt_value _opt_address : Option Nat) :
    Option (CPU × Nat) := do
  let value ← opt_value
  let result := u8_wrapping_sub cpu.accumulator value
  let c1 := cpu.set_status_flag .Zero (result == 0)
  let c2 := c1.set_status_flag .Negative ((result &&& 0x80) != 0)
  let c3 := c2.set_status_flag .Carry (decide (value ≤ cpu.accumulator))
  some (c3, 0)

/-- Embedding of `CPU::handleCPX` (instructions/cpx.rs). -/
def handle_cpx (cpu : CPU) (opt_value _opt_address : Option Nat) :
    Option (CPU × Nat) := do
  let value ← opt_value
  let result := u8_wrapping_sub cpu.x_register value
  let c1 := cpu.set_status_flag .Zero (result == 0)
  let c2 := c1.set_status_flag .Negative ((result &&& 0x80) != 0)
  let c3 := c2.set_status_flag .Carry (decide (value ≤ cpu.x_register))
  some (c3, 0)

/-- Embedding of `CPU::handle_cpy` (instructions/cpy.rs). -/
def handle_cpy (cpu : CPU) (opt_value _opt_address : Option Nat) :
    Option (CPU × Nat) := do
  let value ← opt_value
  let result := u8_wrapping_sub cpu.y_register value
  let c1 := cpu.set_status_flag .Zero (result == 0)
  let c2 := c1.set_status_flag .Negative ((result &&& 0x80) != 0)
  let c3 := c2.set_status_flag .Carry (decide (value ≤ cpu.y_register))
  some (c3, 0)

/-- Embedding of `CPU::handleINC` (instructions/inc.rs): write the
incremented byte back, then set Z/N from it. -/
def handle_inc (cpu : CPU) (opt_value opt_address : Option Nat) :
    Option (CPU × Nat) := do
  let value ← opt_value
  let address ← opt_address
  let value := (value + 1) % 256
  let c1 ← cpu.write_u8 address value
  let c2 := c1.set_status_flag .Zero (value == 0)
  let c3 := c2.set_status_flag .Negative ((value &&& 0x80) != 0)
  some (c3, 0)

/-- Embedding of `CPU::handle_dec` (instructions/dec.rs). -/
def handle_dec (cpu : CPU) (opt_value opt_address : Option Nat) :
    Option (CPU × Nat) := do
  let value ← opt_value
  let address ← opt_address
  let result := u8_wrapping_sub value 1
  let c1 ← cpu.write_u8 address result
  let c2 := c1.set_status_flag .Zero (result == 0)
  let c3 := c2.set_status_flag .Negative ((result &&& 0x80) != 0)
  some (c3, 0)

/-- Embedding of `CPU::handleINX` (instructions/inx.rs). -/
def handle_inx (cpu : CPU) (_opt_value _opt_address : Option Nat) :
    Option (CPU × Nat) := do
  let result := (cpu.x_register + 1) % 256
  let c1 := cpu.set_status_flag .Zero (result == 0)
  let c2 := c1.set_status_flag .Negative ((result &&& 0x80) != 0)
  some ({ c2 with x_register := result }, 0)

/-- Embedding of `CPU::handle_iny` (instructions/iny.rs). -/
def handle_iny (cpu : CPU) (_opt_value _opt_address : Option Nat) :
    Option (CPU × Nat) := do
  let result := (cpu.y_register + 1) % 256
  let c1 := cpu.set_status_flag .Zero (result == 0)
  let c2 := c1.set_status_flag .Negative ((result &&& 0x80) != 0)
  some ({ c2 with y_register := result }, 0)

/-- Modelled from the spec: `handle_dex` — instructions/dex.rs is missing
from the sources; §4.5: decrement X with 8-bit wrap, update N/Z. -/
def handle_dex (cpu : CPU) (_opt_value _opt_address : Option Nat) :
    Option (CPU × Nat) := do
  let result := u8_wrapping_sub cpu.x_register 1
  let c1 := cpu.set_status_flag .Zero (result == 0)
  let c2 := c1.set_status_flag .Negative ((result &&& 0x80) != 0)
  some ({ c2 with x_register := result }, 0)

/-- Embedding of `CPU::handleDEY` (instructions/dey.rs).  The source
computes the decremented value and sets the flags from it but never writes
it back to the Y register; the embedding mirrors that. -/
def handle_dey (cpu : CPU) (_opt_value _opt_address : Option Nat) :
    Option (CPU × Nat) := do
  let result := u8_wrapping_sub cpu.y_register 1
  let c1 := cpu.set_status_flag .Zero (result == 0)
  let c2 := c1.set_status_flag .Negative ((result &&& 0x80) != 0)
  some (c2, 0)

/-- Embedding of `CPU::handleBit` (instructions/bit.rs), adapted to the
table's calling convention: the operand value is taken from `opt_value`. -/
def handle_bit (cpu : CPU) (opt_value _opt_address : Option Nat) :
    Option (CPU × Nat) := do
  let value ← opt_value
  let result := cpu.accumulator &&& value
  let c1 := cpu.set_status_flag .Zero (result == 0)
  let c2 := c1.set_status_flag .Overflow ((value &&& 0x40) != 0)
  let c3 := c2.set_status_flag .Negative ((value &&& 0x80) != 0)
  some (c3, 0)

/-- Embedding of `CPU::handleJMP` (instructions/jmp.rs). -/
def handle_jmp (cpu : CPU) (_opt_value opt_address : Option Nat) :
    Option (CPU × Nat) := do
  let address ← opt_address
  some ({ cpu with program_counter := address }, 0)

/-- Embedding of `CPU::handle_jsr` (instructions/jsr.rs): push `PC + 2`
(checked addition) and jump to the target. -/
def handle_jsr (cpu : CPU) (_opt_value opt_address : Option Nat) :
    Option (CPU × Nat) := do
  let target_address ← opt_address
  let return_address ← u16_checked_add cpu.program_counter 2
  let c1 ← cpu.push_u16 return_address
  some ({ c1 with program_counter := target_address }, 0)

/-- Embedding of `CPU::handleRTS` (instructions/rts.rs): pop the return
address minus one and add one with `u16` wrap. -/
def handle_rts (cpu : CPU) (_opt_value _opt_address : Option Nat) :
    Option (CPU × Nat) := do
  let (return_address_minus_one, c1) ← cpu.pop_u16
  some ({ c1 with program_counter := (return_address_minus_one + 1) % 65536 }, 0)

/-- Embedding of `CPU::handle_brk` (instructions/brk.rs): push `PC + 2`
(checked), push P with B and U forced to 1, set I, load PC from `$FFFE`. -/
def handle_brk (cpu : CPU) (_opt_value _opt_address : Option Nat) :
    Option (CPU × Nat) := do
  let pc2 ← u16_checked_add cpu.program_counter 2
  let c1 ← cpu.push_u16 pc2
  let status := c1.status_register ||| (1 <<< StatusFlag.BreakCommand.bit)
    ||| (1 <<< StatusFlag.Unused.bit)
  let c2 ← c1.push_u8 status
  let c3 := c2.set_status_flag .InterruptDisable true
  let pcv ← c3.read_u16 0xFFFE
  some ({ c3 with program_counter := pcv }, 0)

/-- Embedding of `CPU::handle_rti` (instructions/rti.rs): pop P (keeping
the current B and U bits), then pop PC. -/
def handle_rti (cpu : CPU) (_opt_value _opt_address : Option Nat) :
    Option (CPU × Nat) := do
  let (popped_status, c1) ← cpu.pop_u8
  let (pcv, c2) ← c1.pop_u16
  let c3 := { c2 with program_counter := pcv }
  let preserved_mask := (1 <<< StatusFlag.BreakCommand.bit) ||| (1 <<< StatusFlag.Unused.bit)
  some ({ c3 with status_register :=
    (popped_status &&& (0xFF ^^^ preserved_mask)) |||
    (c3.status_register &&& preserved_mask) }, 0)

/-- Embedding of `CPU::handle_plp` (instructions/plp.rs): pop P, keeping
the current B and U bits instead of the popped ones. -/
def handle_plp (cpu : CPU) (_opt_value _opt_address : Option Nat) :
    Option (CPU × Nat) := do
  let (popped_status, c1) ← cpu.pop_u8
  let preserved_mask := (1 <<< StatusFlag.BreakCommand.bit) ||| (1 <<< StatusFlag.Unused.bit)
  some ({ c1 with status_register :=
    (popped_status &&& (0xFF ^^^ preserved_mask)) |||
    (c1.status_register &&& preserved_mask) }, 0)

/-- Embedding of `CPU::handlePHP` (instructions/php.rs): push P with B and
U set. -/
def handle_php (cpu : CPU) (_opt_value _opt_address : Option Nat) :
    Option (CPU × Nat) := do
  let status := cpu.status_register ||| (1 <<< StatusFlag.BreakCommand.bit)
    ||| (1 <<< StatusFlag.Unused.bit)
  let c1 ← cpu.push_u8 status
  some (c1, 0)

/-- Embedding of `CPU::handlePHA` (instructions/pha.rs). -/
def handle_pha (cpu : CPU) (_opt_value _opt_address : Option Nat) :
    Option (CPU × Nat) := do
  let c1 ← cpu.push_u8 cpu.accumulator
  some (c1, 0)

/-- Embedding of `CPU::handle_pla` (instructions/pla.rs). -/
def handle_pla (cpu : CPU) (_opt_value _opt_address : Option Nat) :
    Option (CPU × Nat) := do
  let (value, c1) ← cpu.pop_u8
  let c2 := { c1 with accumulator := value }
  let c3 := c2.set_status_flag .Zero (c2.accumulator == 0)
  let c4 := c3.set_status_flag .Negative ((c2.accumulator &&& 0x80) != 0)
  some (c4, 0)

/-- Embedding of `CPU::handleBCS` (instructions/bcs.rs). -/
def handle_bcs (cpu : CPU) (opt_value _opt_address : Option Nat) :
    Option (CPU × Nat) := do
  let value ← opt_value
  some (cpu.branch (cpu.get_status_flag .Carry) value)

/-- Modelled from the spec: `handle_bcc` — instructions/bcc.rs is missing
from the sources; §4.5: branch (via the shared `branch` helper) when the
carry flag is clear. -/
def handle_bcc (cpu : CPU) (opt_value _opt_address : Option Nat) :
    Option (CPU × Nat) := do
  let value ← opt_value
  some (cpu.branch (!cpu.get_status_flag .Carry) value)

/-- Embedding of `CPU::handleBEQ` (instructions/beq.rs). -/
def handle_beq (cpu : CPU) (opt_value _opt_address : Option Nat) :
    Option (CPU × Nat) := do
  let value ← opt_value
  some (cpu.branch (cpu.get_status_flag .Zero) value)

/-- Modelled from the spec: `handle_bne` — instructions/bne.rs is missing
from the sources; §4.5: branch when the zero flag is clear. -/
def handle_bne (cpu : CPU) (opt_value _opt_address : Option Nat) :
    Option (CPU × Nat) := do
  let value ← opt_value
  some (cpu.branch (!cpu.get_status_flag .Zero) value)

/-- Embedding of `CPU::handleBMI` (instructions/bmi.rs). -/
def handle_bmi (cpu : CPU) (opt_value _opt_address : Option Nat) :
    Option (CPU × Nat) := do
  let value ← opt_value
  some (cpu.branch (cpu.get_status_flag .Negative) value)

/-- Modelled from the spec: `handle_bpl` — instructions/bpl.rs is missing
from the sources; §4.5: branch when the negative flag is clear. -/
def handle_bpl (cpu : CPU) (opt_value _opt_address : Option Nat) :
    Option (CPU × Nat) := do
  let value ← opt_value
  some (cpu.branch (!cpu.get_status_flag .Negative) value)

/-- Embedding of `CPU::handle_bvc` (instructions/bvc.rs). -/
def handle_bvc (cpu : CPU) (opt_value _opt_address : Option Nat) :
    Option (CPU × Nat) := do
  let value ← opt_value
  some (cpu.branch (!cpu.get_status_flag .Overflow) value)

/-- Embedding of `CPU::handleBVS` (instructions/bvs.rs). -/
def handle_bvs (cpu : CPU) (opt_value _opt_address : Option Nat) :
    Option (CPU × Nat) := do
  let value ← opt_value
  some (cpu.branch (cpu.get_status_flag .Overflow) value)

/-- Modelled from the spec: `handle_clc` — instructions/clc.rs is missing
from the sources; §4.5: clear the carry flag. -/
def handle_clc (cpu : CPU) (_opt_value _opt_address : Option Nat) :
    Option (CPU × Nat) :=
  some (cpu.set_status_flag .Carry false, 0)

/-- Modelled from the spec: `handle_sec` — instructions/sec.rs is missing
from the sources; §4.5: set the carry flag. -/
def handle_sec (cpu : CPU) (_opt_value _opt_address : Option Nat) :
    Option (CPU × Nat) :=
  some (cpu.set_status_flag .Carry true, 0)

/-- Embedding of `CPU::handleCLD` (instructions/cld.rs). -/
def handle_cld (cpu : CPU) (_opt_value _opt_address : Option Nat) :
    Option (CPU × Nat) :=
  some (cpu.set_status_flag .DecimalMode false, 0)

/-- Embedding of `CPU::handleSED` (instructions/sed.rs). -/
def handle_sed (cpu : CPU) (_opt_value _opt_address : Option Nat) :
    Option (CPU × Nat) :=
  some (cpu.set_status_flag .DecimalMode true, 0)

/-- Embedding of `CPU::handle_cli` (instructions/cli.rs). -/
def handle_cli (cpu : CPU) (_opt_value _opt_address : Option Nat) :
    Option (CPU × Nat) :=
  some (cpu.set_status_flag .InterruptDisable false, 0)

/-- Embedding of `CPU::handle_sei` (instructions/sei.rs). -/
def handle_sei (cpu : CPU) (_opt_value _opt_address : Option Nat) :
    Option (CPU × Nat) :=
  some (cpu.set_status_flag .InterruptDisable true, 0)

/-- Modelled from the spec: `handle_clv` — instructions/clv.rs is missing
from the sources; §4.5: clear the overflow flag. -/
def handle_clv (cpu : CPU) (_opt_value _opt_address : Option Nat) :
    Option (CPU × Nat) :=
  some (cpu.set_status_flag .Overflow false, 0)

/-- Embedding of `CPU::handle_nop` (instructions/nop.rs). -/
def handle_nop (cpu : CPU) (_opt_value _opt_address : Option Nat) :
    Option (CPU × Nat) :=
  some (cpu, 0)

/-- Modelled from the spec: `handle_tax` — instructions/tax.rs is missing
from the sources; §4.5: copy A into X, set N and Z. -/
def handle_tax (cpu : CPU) (_opt_value _opt_address : Option Nat) :
    Option (CPU × Nat) := do
  let c1 := { cpu with x_register := cpu.accumulator }
  let c2 := c1.set_status_flag .Zero (c1.x_register == 0)
  let c3 := c2.set_status_flag .Negative ((c1.x_register &&& 0x80) != 0)
  some (c3, 0)

/-- Embedding of `CPU::handle_tay` (instructions/tay.rs). -/
def handle_tay (cpu : CPU) (_opt_value _opt_address : Option Nat) :
    Option (CPU × Nat) := do
  let c1 := { cpu with y_register := cpu.accumulator }
  let c2 := c1.set_status_flag .Zero (c1.y_register == 0)
  let c3 := c2.set_status_flag .Negative ((c1.y_register &&& 0x80) != 0)
  some (c3, 0)

/-- Embedding of `CPU::handle_tsx` (instructions/tsx.rs). -/
def handle_tsx (cpu : CPU) (_opt_value _opt_address : Option Nat) :
    Option (CPU × Nat) := do
  let c1 := { cpu with x_register := cpu.stack_pointer }
  let c2 := c1.set_status_flag .Zero (c1.x_register == 0)
  let c3 := c2.set_status_flag .Negative ((c1.x_register &&& 0x80) != 0)
  some (c3, 0)

/-- Modelled from the spec: `handle_txa` — instructions/txa.rs is missing
from the sources; §4.5: copy X into A, set N and Z. -/
def handle_txa (cpu : CPU) (_opt_value _opt_address : Option Nat) :
    Option (CPU × Nat) := do
  let c1 := { cpu with accumulator := cpu.x_register }
  let c2 := c1.set_status_flag .Zero (c1.accumulator == 0)
  let c3 := c2.set_status_flag .Negative ((c1.accumulator &&& 0x80) != 0)
  some (c3, 0)

/-- Embedding of `CPU::handle_txs` (instructions/txs.rs): no flags. -/
def handle_txs (cpu : CPU) (_opt_value _opt_address : Option Nat) :
    Option (CPU × Nat) :=
  some ({ cpu with stack_pointer := cpu.x_register }, 0)

/-- Embedding of `CPU::handleTYA` (instructions/tya.rs). -/
def handle_tya (cpu : CPU) (_opt_value _opt_address : Option Nat) :
    Option (CPU × Nat) := do
  let c1 := { cpu with accumulator := cpu.y_register }
  let c2 := c1.set_status_flag .Zero (c1.accumulator == 0)
  let c3 := c2.set_status_flag .Negative ((c1.accumulator &&& 0x80) != 0)
  some (c3, 0)

/-- Handler function pointers of the opcode table, defunctionalized: one
tag per handler function referenced by `OPERAND_MAP` in the source. -/
inductive InstrHandler where
  | adc | And | asl | bcc | bcs | beq | bit | bmi | bne | bpl | brk
  | bvc | bvs | clc | cld | cli | clv | cmp | cpx | cpy | dec | dex
  | dey | eor | inc | inx | iny | jmp | jsr | lda | ldx | ldy | lsr
  | nop | ora | pha | php | pla | plp | rol | ror | rti | rts | sbc
  | sec | sed | sei | sta | stx | sty | tax | tay | tsx | txa | txs
  | tya
deriving DecidableEq

/-- Dispatch of a handler tag to the handler function it stands for. -/
def run_handler : InstrHandler → CPU → Option Nat → Option Nat → Option (CPU × Nat)
  | .adc => handle_adc
  | .And => handle_and
  | .asl => handle_asl
  | .bcc => handle_bcc
  | .bcs => handle_bcs
  | .beq => handle_beq
  | .bit => handle_bit
  | .bmi => handle_bmi
  | .bne => handle_bne
  | .bpl => handle_bpl
  | .brk => handle_brk
  | .bvc => handle_bvc
  | .bvs => handle_bvs
  | .clc => handle_clc
  | .cld => handle_cld
  | .cli => handle_cli
  | .clv => handle_clv
  | .cmp => handle_cmp
  | .cpx => handle_cpx
  | .cpy => handle_cpy
  | .dec => handle_dec
  | .dex => handle_dex
  | .dey => handle_dey
  | .eor => handle_eor
  | .inc => handle_inc
  | .inx => handle_inx
  | .iny => handle_iny
  | .jmp => handle_jmp
  | .jsr => handle_jsr
  | .lda => handle_lda
  | .ldx => handle_ldx
  | .ldy => handle_ldy
  | .lsr => handle_lsr
  | .nop => handle_nop
  | .ora => handle_ora
  | .pha => handle_pha
  | .php => handle_php
  | .pla => handle_pla
  | .plp => handle_plp
  | .rol => handle_rol
  | .ror => handle_ror
  | .rti => handle_rti
  | .rts => handle_rts
  | .sbc => handle_sbc
  | .sec => handle_sec
  | .sed => handle_sed
  | .sei => handle_sei
  | .sta => handle_sta
  | .stx => handle_stx
  | .sty => handle_sty
  | .tax => handle_tax
  | .tay => handle_tay
  | .tsx => handle_tsx
  | .txa => handle_txa
  | .txs => handle_txs
  | .tya => handle_tya

/-- One entry of the opcode table (`Operand` in the source). -/
structure Operand where
  opcode : Nat
  name : String
  handler : InstrHandler
  addressing_mode : AddressingMode
  bytes : Nat
  cycles : Nat
deriving DecidableEq

/-- Entry constructor, in the field order of the source records. -/
def mkOp (opcode : Nat) (name : String) (handler : InstrHandler)
    (addressing_mode : AddressingMode) (bytes cycles : Nat) : Nat × Operand :=
  (opcode, { opcode := opcode, name := name, handler := handler,
             addressing_mode := addressing_mode, bytes := bytes, cycles := cycles })

/-- The static opcode table `OPERAND_MAP` of cpu6502.rs, as the list of its
entries in source order. -/
def OPERAND_LIST : List (Nat × Operand) := [
  mkOp 0x69 "ADC" .adc .Immediate 2 2,
  mkOp 0x65 "ADC" .adc .ZeroPage 2 3,
  mkOp 0x75 "ADC" .adc .ZeroPageX 2 4,
  mkOp 0x6D "ADC" .adc .Absolute 3 4,
  mkOp 0x7D "ADC" .adc .AbsoluteX 3 4,
  mkOp 0x79 "ADC" .adc .AbsoluteY 3 4,
  mkOp 0x61 "ADC" .adc .IndirectX 2 6,
  mkOp 0x71 "ADC" .adc .IndirectY 2 5,
  mkOp 0x29 "AND" .And .Immediate 2 2,
  mkOp 0x25 "AND" .And .ZeroPage 2 3,
  mkOp 0x35 "AND" .And .ZeroPageX 2 4,
  mkOp 0x2D "AND" .And .Absolute 3 4,
  mkOp 0x3D "AND" .And .AbsoluteX 3 4,
  mkOp 0x39 "AND" .And .AbsoluteY 3 4,
  mkOp 0x21 "AND" .And .IndirectX 2 6,
  mkOp 0x31 "AND" .And .IndirectY 2 5,
  mkOp 0x0A "ASL" .asl .Accumulator 1 2,
  mkOp 0x06 "ASL" .asl .ZeroPage 2 5,
  mkOp 0x16 "ASL" .asl .ZeroPageX 2 6,
  mkOp 0x0E "ASL" .asl .Absolute 3 6,
  mkOp 0x1E "ASL" .asl .AbsoluteX 3 7,
  mkOp 0x90 "BCC" .bcc .Relative 2 2,
  mkOp 0xB0 "BCS" .bcs .Relative 2 2,
  mkOp 0xF0 "BEQ" .beq .Relative 2 2,
  mkOp 0x24 "BIT" .bit .ZeroPage 2 3,
  mkOp 0x2C "BIT" .bit .Absolute 3 4,
  mkOp 0x30 "BMI" .bmi .Relative 2 2,
  mkOp 0xD0 "BNE" .bne .Relative 2 2,
  mkOp 0x10 "BPL" .bpl .Relative 2 2,
  mkOp 0x00 "BRK" .brk .Implicit 1 7,
  mkOp 0x50 "BVC" .bvc .Relative 2 2,
  mkOp 0x70 "BVS" .bvs .Relative 2 2,
  mkOp 0x18 "CLC" .clc .Implicit 1 2,
  mkOp 0xD8 "CLD" .cld .Implicit 1 2,
  mkOp 0x58 "CLI" .cli .Implicit 1 2,
  mkOp 0xB8 "CLV" .clv .Implicit 1 2,
  mkOp 0xC9 "CMP" .cmp .Immediate 2 2,
  mkOp 0xC5 "CMP" .cmp .ZeroPage 2 3,
  mkOp 0xD5 "CMP" .cmp .ZeroPageX 2 4,
  mkOp 0xCD "CMP" .cmp .Absolute 3 4,
  mkOp 0xDD "CMP" .cmp .AbsoluteX 3 4,
  mkOp 0xD9 "CMP" .cmp .AbsoluteY 3 4,
  mkOp 0xC1 "CMP" .cmp .IndirectX 2 6,
  mkOp 0xD1 "CMP" .cmp .IndirectY 2 5,
  mkOp 0xE0 "CPX" .cpx .Immediate 2 2,
  mkOp 0xE4 "CPX" .cpx .ZeroPage 2 3,
  mkOp 0xEC "CPX" .cpx .Absolute 3 4,
  mkOp 0xC0 "CPY" .cpy .Immediate 2 2,
  mkOp 0xC4 "CPY" .cpy .ZeroPage 2 3,
  mkOp 0xCC "CPY" .cpy .Absolute 3 4,
  mkOp 0xC6 "DEC" .dec .ZeroPage 2 5,
  mkOp 0xD6 "DEC" .dec .ZeroPageX 2 6,
  mkOp 0xCE "DEC" .dec .Absolute 3 6,
  mkOp 0xDE "DEC" .dec .AbsoluteX 3 7,
  mkOp 0xCA "DEX" .dex .Implicit 1 2,
  mkOp 0x88 "DEY" .dey .Implicit 1 2,
  mkOp 0x49 "EOR" .eor .Immediate 2 2,
  mkOp 0x45 "EOR" .eor .ZeroPage 2 3,
  mkOp 0x55 "EOR" .eor .ZeroPageX 2 4,
  mkOp 0x4D "EOR" .eor .Absolute 3 4,
  mkOp 0x5D "EOR" .eor .AbsoluteX 3 4,
  mkOp 0x59 "EOR" .eor .AbsoluteY 3 4,
  mkOp 0x41 "EOR" .eor .IndirectX 2 6,
  mkOp 0x51 "EOR" .eor .IndirectY 2 5,
  mkOp 0xE6 "INC" .inc .ZeroPage 2 5,
  mkOp 0xF6 "INC" .inc .ZeroPageX 2 6,
  mkOp 0xEE "INC" .inc .Absolute 3 6,
  mkOp 0xFE "INC" .inc .AbsoluteX 3 7,
  mkOp 0xE8 "INX" .inx .Implicit 1 2,
  mkOp 0xC8 "INY" .iny .Implicit 1 2,
  mkOp 0x4C "JMP" .jmp .Absolute 3 3,
  mkOp 0x6C "JMP" .jmp .Indirect 3 5,
  mkOp 0x20 "JSR" .jsr .Absolute 3 6,
  mkOp 0xA9 "LDA" .lda .Immediate 2 2,
  mkOp 0xA5 "LDA" .lda .ZeroPage 2 3,
  mkOp 0xB5 "LDA" .lda .ZeroPageX 2 4,
  mkOp 0xAD "LDA" .lda .Absolute 3 4,
  mkOp 0xBD "LDA" .lda .AbsoluteX 3 4,
  mkOp 0xB9 "LDA" .lda .AbsoluteY 3 4,
  mkOp 0xA1 "LDA" .lda .IndirectX 2 6,
  mkOp 0xB1 "LDA" .lda .IndirectY 2 5,
  mkOp 0xA2 "LDX" .ldx .Immediate 2 2,
  mkOp 0xA6 "LDX" .ldx .ZeroPage 2 3,
  mkOp 0xB6 "LDX" .ldx .ZeroPageY 2 4,
  mkOp 0xAE "LDX" .ldx .Absolute 3 4,
  mkOp 0xBE "LDX" .ldx .AbsoluteY 3 4,
  mkOp 0xA0 "LDY" .ldy .Immediate 2 2,
  mkOp 0xA4 "LDY" .ldy .ZeroPage 2 3,
  mkOp 0xB4 "LDY" .ldy .ZeroPageX 2 4,
  mkOp 0xAC "LDY" .ldy .Absolute 3 4,
  mkOp 0xBC "LDY" .ldy .AbsoluteX 3 4,
  mkOp 0x4A "LSR" .lsr .Accumulator 1 2,
  mkOp 0x46 "LSR" .lsr .ZeroPage 2 5,
  mkOp 0x56 "LSR" .lsr .ZeroPageX 2 6,
  mkOp 0x4E "LSR" .lsr .Absolute 3 6,
  mkOp 0x5E "LSR" .lsr .AbsoluteX 3 7,
  mkOp 0xEA "NOP" .nop .Implicit 1 2,
  mkOp 0x09 "ORA" .ora .Immediate 2 2,
  mkOp 0x05 "ORA" .ora .ZeroPage 2 3,
  mkOp 0x15 "ORA" .ora .ZeroPageX 2 4,
  mkOp 0x0D "ORA" .ora .Absolute 3 4,
  mkOp 0x1D "ORA" .ora .AbsoluteX 3 4,
  mkOp 0x19 "ORA" .ora .AbsoluteY 3 4,
  mkOp 0x01 "ORA" .ora .IndirectX 2 6,
  mkOp 0x11 "ORA" .ora .IndirectY 2 5,
  mkOp 0x48 "PHA" .pha .Implicit 1 3,
  mkOp 0x08 "PHP" .php .Implicit 1 3,
  mkOp 0x68 "PLA" .pla .Implicit 1 4,
  mkOp 0x28 "PLP" .plp .Implicit 1 4,
  mkOp 0x2A "ROL" .rol .Accumulator 1 2,
  mkOp 0x26 "ROL" .rol .ZeroPage 2 5,
  mkOp 0x36 "ROL" .rol .ZeroPageX 2 6,
  mkOp 0x2E "ROL" .rol .Absolute 3 6,
  mkOp 0x3E "ROL" .rol .AbsoluteX 3 7,
  mkOp 0x6A "ROR" .ror .Accumulator 1 2,
  mkOp 0x66 "ROR" .ror .ZeroPage 2 5,
  mkOp 0x76 "ROR" .ror .ZeroPageX 2 6,
  mkOp 0x6E "ROR" .ror .Absolute 3 6,
  mkOp 0x7E "ROR" .ror .AbsoluteX 3 7,
  mkOp 0x40 "RTI" .rti .Implicit 1 6,
  mkOp 0x60 "RTS" .rts .Implicit 1 6,
  mkOp 0xE9 "SBC" .sbc .Immediate 2 2,
  mkOp 0xE5 "SBC" .sbc .ZeroPage 2 3,
  mkOp 0xF5 "SBC" .sbc .ZeroPageX 2 4,
  mkOp 0xED "SBC" .sbc .Absolute 3 4,
  mkOp 0xFD "SBC" .sbc .AbsoluteX 3 4,
  mkOp 0xF9 "SBC" .sbc .AbsoluteY 3 4,
  mkOp 0xE1 "SBC" .sbc .IndirectX 2 6,
  mkOp 0xF1 "SBC" .sbc .IndirectY 2 5,
  mkOp 0x38 "SEC" .sec .Implicit 1 2,
  mkOp 0xF8 "SED" .sed .Implicit 1 2,
  mkOp 0x78 "SEI" .sei .Implicit 1 2,
  mkOp 0x85 "STA" .sta .ZeroPage 2 3,
  mkOp 0x95 "STA" .sta .ZeroPageX 2 4,
  mkOp 0x8D "STA" .sta .Absolute 3 4,
  mkOp 0x9D "STA" .sta .AbsoluteX 3 5,
  mkOp 0x99 "STA" .sta .AbsoluteY 3 5,
  mkOp 0x81 "STA" .sta .IndirectX 2 6,
  mkOp 0x91 "STA" .sta .IndirectY 2 6,
  mkOp 0x86 "STX" .stx .ZeroPage 2 3,
  mkOp 0x96 "STX" .stx .ZeroPageY 2 4,
  mkOp 0x8E "STX" .stx .Absolute 3 4,
  mkOp 0x84 "STY" .sty .ZeroPage 2 3,
  mkOp 0x94 "STY" .sty .ZeroPageX 2 4,
  mkOp 0x8C "STY" .sty .Absolute 3 4,
  mkOp 0xAA "TAX" .tax .Implicit 1 2,
  mkOp 0xA8 "TAY" .tay .Implicit 1 2,
  mkOp 0xBA "TSX" .tsx .Implicit 1 2,
  mkOp 0x8A "TXA" .txa .Implicit 1 2,
  mkOp 0x9A "TXS" .txs .Implicit 1 2,
  mkOp 0x98 "TYA" .tya .Implicit 1 2]

/-- Lookup in the static opcode table (`OPERAND_MAP.get` in the source). -/
def OPERAND_MAP (opcode : Nat) : Option Operand :=
  (OPERAND_LIST.find? (fun e => e.1 == opcode)).map (fun e => e.2)

/-- The mnemonic match of the run loop's page-cross penalty:
`"ADC" | "AND" | "CMP" | "EOR" | "LDA" | "LDX" | "LDY" | "ORA" | "SBC"`. -/
def page_cross_penalty (name : String) : Bool :=
  name == "ADC" || name == "AND" || name == "CMP" || name == "EOR" ||
  name == "LDA" || name == "LDX" || name == "LDY" || name == "ORA" ||
  name == "SBC"

/-- The run loop's page-cross cycle increment: `self.cycles += 1` exactly
when the resolver crossed a page and the mnemonic is in the read-family
match. -/
def apply_page_cross_penalty (cpu : CPU) (crossed : Bool) (name : String) : CPU :=
  if crossed && page_cross_penalty name then
    { cpu with cycles := cpu.cycles + 1 }
  else
    cpu

/-- One iteration of the body of `CPU::run_with_callback` (the callback is
a trace hook and does not influence the machine step): fetch the opcode,
look it up in the table (`panic!` when absent), resolve the operand, apply
the read-family page-cross penalty, run the handler, account the cycles,
and advance the PC when the handler did not change it. -/
def step (cpu0 : CPU) : Option CPU := do
  let pc_before_instruction := cpu0.program_counter
  let opcode ← cpu0.read_u8 pc_before_instruction
  let operand_info ← OPERAND_MAP opcode
  let (cpu1, operand_value, operand_address) ←
    match operand_info.addressing_mode with
    | .Implicit => some (cpu0, (none : Option Nat), (none : Option Nat))
    | .Accumulator => some (cpu0, some cpu0.accumulator, (none : Option Nat))
    | m => do
        let a1 ← u16_checked_add pc_before_instruction 1
        let (addr, crossed) ← cpu0.get_operand_address m a1
        let cpu1 := apply_page_cross_penalty cpu0 crossed operand_info.name
        let v ← cpu1.read_u8 addr
        some (cpu1, some v, some addr)
  let (cpu2, handler_extra) ←
    run_handler operand_info.handler cpu1 operand_value operand_address
  let cpu3 := { cpu2 with cycles := cpu2.cycles + operand_info.cycles + handler_extra }
  if cpu3.program_counter = pc_before_instruction then do
    let npc ← u16_checked_add pc_before_instruction operand_info.bytes
    some { cpu3 with program_counter := npc }
  else
    some cpu3

/-- NOP program: PRG-ROM `[$EA]` executed at $8000. -/
def nopCpu : CPU := { cexCpu with program_counter := 0x8000 }

/-- The state after stepping `nopCpu`: PC advanced by one, 2 cycles. -/
def nopCpuAfter : CPU := { nopCpu with program_counter := 0x8001, cycles := 2 }

/-- RAM holding the single byte $02 (a KIL/JAM opcode) at address 0. -/
def kilRam : Nat → Nat := fun i => if i = 0 then 0x02 else 0

/-- CPU about to fetch the KIL opcode $02 at PC = 0. -/
def kilCpu : CPU := new_cpu { internal_ram := kilRam, rom := { prg_rom := [0xEA] } }

/-- KIL/JAM family opcode bytes. -/
def kil_opcodes : List Nat :=
  [0x02, 0x12, 0x22, 0x32, 0x42, 0x52, 0x62, 0x72, 0x92, 0xB2, 0xD2, 0xF2]

/-- RAM holding the single byte $EB (unofficial SBC) at address 0. -/
def ebRam : Nat → Nat := fun i => if i = 0 then 0xEB else 0

/-- CPU about to fetch the unofficial opcode $EB at PC = 0. -/
def ebCpu : CPU := new_cpu { internal_ram := ebRam, rom := { prg_rom := [0xEA] } }

/-- The required minimum set of unofficial opcodes of §4.4: NOP variants
(SKB/IGN/TOP), LAX, SAX, DCP, ISC, SLO, RLA, SRE, RRA, unofficial SBC $EB,
ANC, ASR, ARR, AXS, ATX, XAA, SHX, SHY, TAS, LAR, AHX and KIL. -/
def unofficial_min_opcodes : List Nat :=
  [0x04, 0x14, 0x34, 0x44, 0x54, 0x64, 0x74, 0x80, 0x82, 0x89, 0xC2, 0xD4, 0xE2, 0xF4,
   0x0C, 0x1C, 0x3C, 0x5C, 0x7C, 0xDC, 0xFC,
   0x1A, 0x3A, 0x5A, 0x7A, 0xDA, 0xFA,
   0xA7, 0xB7, 0xAF, 0xBF, 0xA3, 0xB3,
   0x87, 0x97, 0x8F, 0x83,
   0xC7, 0xD7, 0xCF, 0xDF, 0xDB, 0xC3, 0xD3,
   0xE7, 0xF7, 0xEF, 0xFF, 0xFB, 0xE3, 0xF3,
   0x07, 0x17, 0x0F, 0x1F, 0x1B, 0x03, 0x13,
   0x27, 0x37, 0x2F, 0x3F, 0x3B, 0x23, 0x33,
   0x47, 0x57, 0x4F, 0x5F, 0x5B, 0x43, 0x53,
   0x67, 0x77, 0x6F, 0x7F, 0x7B, 0x63, 0x73,
   0xEB,
   0x0B, 0x2B, 0x4B, 0x6B, 0xCB, 0xAB, 0x8B,
   0x9E, 0x9C, 0x9B, 0xBB, 0x9F, 0x93,
   0x02, 0x12, 0x22, 0x32, 0x42, 0x52, 0x62, 0x72, 0x92, 0xB2, 0xD2, 0xF2]

/-- The read-family of the claim, following the spec's words: ADC, AND,
CMP, EOR, LDA, LDX, LDY, ORA, SBC, plus unofficial LAX and the NOP-read
variants (mnemonics NOP/SKB/IGN/TOP/DOP in common tables). -/
def claim_read_family (name : String) : Bool :=
  name == "ADC" || name == "AND" || name == "CMP" || name == "EOR" ||
  name == "LDA" || name == "LDX" || name == "LDY" || name == "ORA" ||
  name == "SBC" || name == "LAX" || name == "NOP" || name == "SKB" ||
  name == "IGN" || name == "TOP" || name == "DOP"

/-- Scenario S2 start state: A = $50 and the carry flag set. -/
def adcCpu : CPU := { cexCpu with accumulator := 0x50, status_register := 0x25 }

/-- Scenario S3 memory: `6C FF 10` at $0400, $10FF = $CD (RAM index $FF),
$1000 = $AB (RAM index $00). -/
def jmpRam : Nat → Nat := fun i =>
  if i = 0x400 then 0x6C else if i = 0x401 then 0xFF else if i = 0x402 then 0x10
  else if i = 0xFF then 0xCD else if i = 0x00 then 0xAB else 0

/-- CPU about to execute `JMP ($10FF)` at PC = $0400. -/
def jmpCpu : CPU :=
  { new_cpu { internal_ram := jmpRam, rom := { prg_rom := [0xEA] } } with
    program_counter := 0x400 }

/-- Scenario S5 memory: `F0 10` (`BEQ +$10`) at $10FD (RAM indexes
$FD/$FE). -/
def beqRam : Nat → Nat := fun i =>
  if i = 0xFD then 0xF0 else if i = 0xFE then 0x10 else 0

/-- CPU at PC = $10FD with the zero flag set (P = $26). -/
def beqCpu : CPU :=
  { new_cpu { internal_ram := beqRam, rom := { prg_rom := [0xEA] } } with
    program_counter := 0x10FD, status_register := 0x26 }

/-- State after stepping `beqCpu`: PC = $110F, 2 base + 2 extra cycles. -/
def beqCpuAfter : CPU := { beqCpu with program_counter := 0x110F, cycles := 4 }

/-- Counterexample for C1: a bus read of the PPU register region panics via
`todo!` (modelled `none`), it does not return 0; a write there panics as
well instead of being discarded. -/
theorem c1_ppu_region_panics :
    cexBus.read_u8 0x2000 ≠ some 0 ∧ cexBus.read_u8 0x2000 = none ∧
    cexBus.write_u8 0x2000 0 = none :=
  ⟨by decide, by decide, rfl⟩

/-- Claim C1 (amended): for the stubbed regions $4000-$401F, $4020-$5FFF
and $6000-$7FFF a bus read returns 0 and is no error, and a bus write is
discarded leaving the bus unchanged; for $2000-$3FFF (PPU) both reads and
writes abort via `todo!` instead. -/
theorem c1_stub_regions (b : Bus) (a d : Nat) :
    (0x4000 ≤ a → a ≤ 0x7FFF → b.read_u8 a = some 0 ∧ b.write_u8 a d = some b) ∧
    (0x2000 ≤ a → a ≤ 0x3FFF → b.read_u8 a = none ∧ b.write_u8 a d = none) := by
  constructor
  · intro h1 h2
    constructor
    · unfold Bus.read_u8
      rw [if_neg (by omega), if_neg (by omega), if_neg (by omega)]
    · unfold Bus.write_u8
      rw [if_neg (by omega), if_neg (by omega)]
  · intro h1 h2
    constructor
    · unfold Bus.read_u8
      rw [if_neg (by omega), if_pos (by omega)]
    · unfold Bus.write_u8
      rw [if_neg (by omega), if_pos (by omega)]

/-- Witness for C1: the amended statement evaluated at address $6000. -/
theorem c1_stub_regions_witness :
    cexBus.read_u8 0x6000 = some 0 ∧ cexBus.write_u8 0x6000 7 = some cexBus :=
  (c1_stub_regions cexBus 0x6000 7).1 (by decide) (by decide)

/-- Claim C9: with a 16 KiB PRG-ROM, reads of $8000+i and $C000+i both
return PRG byte i (so they are equal); with a 32 KiB PRG-ROM the mapping
$8000-$FFFF onto the PRG bytes is linear. -/
theorem c9_nrom_mirror (b : Bus) (i : Nat) :
    (b.rom.prg_rom.length = 16384 → i < 0x4000 →
      b.read_u8 (0x8000 + i) = b.rom.prg_rom[i]? ∧
      b.read_u8 (0xC000 + i) = b.rom.prg_rom[i]? ∧
      b.read_u8 (0x8000 + i) = b.read_u8 (0xC000 + i)) ∧
    (b.rom.prg_rom.length = 32768 → i < 0x8000 →
      b.read_u8 (0x8000 + i) = b.rom.prg_rom[i]?) := by
  constructor
  · intro hlen hi
    have h1 : b.read_u8 (0x8000 + i) = b.rom.prg_rom[i]? := by
      unfold Bus.read_u8
      rw [if_neg (by omega), if_neg (by omega), if_pos (by omega)]
      dsimp only
      rw [show 0x8000 + i - 0x8000 = i by omega, if_neg (by omega)]
    have h2 : b.read_u8 (0xC000 + i) = b.rom.prg_rom[i]? := by
      unfold Bus.read_u8
      rw [if_neg (by omega), if_neg (by omega), if_pos (by omega)]
      dsimp only
      rw [show 0xC000 + i - 0x8000 = 16384 + i by omega,
        if_pos ⟨hlen, by omega⟩, show (16384 + i) % 16384 = i by omega]
    exact ⟨h1, h2, h1.trans h2.symm⟩
  · intro hlen hi
    unfold Bus.read_u8
    rw [if_neg (by omega), if_neg (by omega), if_pos (by omega)]
    dsimp only
    rw [show 0x8000 + i - 0x8000 = i by omega, if_neg (by omega)]

/-- Witness for C9: a concrete 16 KiB cartridge whose PRG byte 5 is $AB is
read back identically at $8005 and $C005. -/
theorem c9_nrom_mirror_witness :
    mir16Bus.read_u8 0x8005 = some 0xAB ∧
    mir16Bus.read_u8 0x8005 = mir16Bus.read_u8 0xC005 := by
  have hlen : mir16Bus.rom.prg_rom.length = 16384 := by
    show mir16prg.length = 16384
    unfold mir16prg
    rw [List.length_append, List.length_replicate, List.length_cons,
      List.length_replicate]
  have h := (c9_nrom_mirror mir16Bus 5).1 hlen (by omega)
  refine ⟨?_, h.2.2⟩
  rw [h.1]
  show mir16prg[5]? = some 0xAB
  unfold mir16prg
  rw [List.getElem?_append_right (by simp only [List.length_replicate]; exact le_refl 5)]
  simp only [List.length_replicate, Nat.sub_self, List.getElem?_cons_zero]

/-- Claim C10: `read_u16`/`write_u16` access `addr` and `addr + 1`
little-endian for every `addr ≤ $FFFE`, but at `addr = $FFFF` the checked
`addr + 1` overflows and the access faults instead of wrapping to `$0000`. -/
theorem c10_u16_accessors (cpu : CPU) (addr v : Nat) :
    (addr ≤ 0xFFFE →
      cpu.read_u16 addr = (cpu.read_u8 addr).bind (fun lo =>
        (cpu.read_u8 (addr + 1)).map (fun hi => u16_from_le lo hi)) ∧
      cpu.write_u16 addr v = (cpu.write_u8 addr (v % 256)).bind (fun c1 =>
        c1.write_u8 (addr + 1) (v / 256 % 256))) ∧
    (cpu.read_u16 0xFFFF = none ∧ cpu.write_u16 0xFFFF v = none) := by
  have hchk : ∀ a, a ≤ 0xFFFE → u16_checked_add a 1 = some (a + 1) := by
    intro a ha
    unfold u16_checked_add
    rw [if_pos (by omega)]
  have hover : u16_checked_add 0xFFFF 1 = none := by
    unfold u16_checked_add
    rw [if_neg (by omega)]
  refine ⟨fun ha => ⟨?_, ?_⟩, ?_, ?_⟩
  · simp only [CPU.read_u16, hchk addr ha]
    cases hlo : cpu.read_u8 addr <;> cases hhi : cpu.read_u8 (addr + 1) <;>
      simp [hlo, hhi]
  · simp only [CPU.write_u16, hchk addr ha]
    cases hc1 : cpu.write_u8 addr (v % 256) <;> simp [hc1]
  · simp only [CPU.read_u16, hover]
    cases hlo : cpu.read_u8 0xFFFF <;> simp [hlo]
  · simp only [CPU.write_u16, hover]
    cases hc1 : cpu.write_u8 0xFFFF (v % 256) <;> simp [hc1]

/-- Witness for C10: the $FFFE and $FFFF cases evaluated on the concrete
cold-start CPU. -/
theorem c10_u16_accessors_witness :
    cexCpu.read_u16 0x0000 = (cexCpu.read_u8 0x0000).bind (fun lo =>
      (cexCpu.read_u8 0x0001).map (fun hi => u16_from_le lo hi)) ∧
    cexCpu.read_u16 0xFFFF = none :=
  ⟨((c10_u16_accessors cexCpu 0 0).1 (by decide)).1,
    (c10_u16_accessors cexCpu 0xFFFF 0).2.1⟩

/-- Bits inside the mask 48 (`$30`, bits 4 and 5) survive OR-ing with a
mask disjoint from 48. -/
lemma or_and48 (P m : Nat) (hm : m &&& 48 = 0) : (P ||| m) &&& 48 = P &&& 48 := by
  apply Nat.eq_of_testBit_eq
  intro i
  have hmi := congrArg (fun x => Nat.testBit x i) hm
  simp only [Nat.testBit_and, Nat.testBit_or, Nat.zero_testBit] at hmi ⊢
  cases hP : P.testBit i <;> cases h48 : (48 : Nat).testBit i <;>
    cases hmm : m.testBit i <;> simp_all

/-- Bits inside the mask 48 survive AND-ing with a mask that contains 48. -/
lemma and_and48 (P m : Nat) (hm : 48 &&& m = 48) : (P &&& m) &&& 48 = P &&& 48 := by
  apply Nat.eq_of_testBit_eq
  intro i
  have hmi := congrArg (fun x => Nat.testBit x i) hm
  simp only [Nat.testBit_and] at hmi ⊢
  cases hP : P.testBit i <;> cases h48 : (48 : Nat).testBit i <;>
    cases hmm : m.testBit i <;> simp_all

/-- `set_status_flag` on a flag other than B (bit 4) and U (bit 5) keeps
bits 4 and 5 of the status register. -/
lemma set_flag_and48 (cpu : CPU) (f : StatusFlag) (b : Bool) (h4 : f.bit ≠ 4)
    (h5 : f.bit ≠ 5) :
    (cpu.set_status_flag f b).status_register &&& 48 = cpu.status_register &&& 48 := by
  unfold CPU.set_status_flag
  cases b
  · rw [if_neg Bool.false_ne_true]
    apply and_and48
    cases f <;> first | decide | exact absurd rfl h4 | exact absurd rfl h5
  · rw [if_pos rfl]
    apply or_and48
    cases f <;> first | decide | exact absurd rfl h4 | exact absurd rfl h5

lemma set_carry48 (cpu : CPU) (b : Bool) :
    (cpu.set_status_flag .Carry b).status_register &&& 48 = cpu.status_register &&& 48 :=
  set_flag_and48 cpu .Carry b (by decide) (by decide)

lemma set_zero48 (cpu : CPU) (b : Bool) :
    (cpu.set_status_flag .Zero b).status_register &&& 48 = cpu.status_register &&& 48 :=
  set_flag_and48 cpu .Zero b (by decide) (by decide)

lemma set_interrupt48 (cpu : CPU) (b : Bool) :
    (cpu.set_status_flag .InterruptDisable b).status_register &&& 48 = cpu.status_register &&& 48 :=
  set_flag_and48 cpu .InterruptDisable b (by decide) (by decide)

lemma set_decimal48 (cpu : CPU) (b : Bool) :
    (cpu.set_status_flag .DecimalMode b).status_register &&& 48 = cpu.status_register &&& 48 :=
  set_flag_and48 cpu .DecimalMode b (by decide) (by decide)

lemma set_overflow48 (cpu : CPU) (b : Bool) :
    (cpu.set_status_flag .Overflow b).status_register &&& 48 = cpu.status_register &&& 48 :=
  set_flag_and48 cpu .Overflow b (by decide) (by decide)

lemma set_negative48 (cpu : CPU) (b : Bool) :
    (cpu.set_status_flag .Negative b).status_register &&& 48 = cpu.status_register &&& 48 :=
  set_flag_and48 cpu .Negative b (by decide) (by decide)

/-- The PLP/RTI status merge keeps bits 4 and 5 of the current register. -/
lemma unpack48 (x y : Nat) :
    ((x &&& 0xCF) ||| (y &&& 48)) &&& 48 = y &&& 48 := by
  apply Nat.eq_of_testBit_eq
  intro i
  have hlink := congrArg (fun z => Nat.testBit z i) (show (0xCF : Nat) &&& 48 = 0 by decide)
  simp only [Nat.testBit_and, Nat.testBit_or, Nat.zero_testBit] at hlink ⊢
  cases hx : x.testBit i <;> cases hy : y.testBit i <;>
    cases hc : (0xCF : Nat).testBit i <;> cases hf : (48 : Nat).testBit i <;> simp_all

/-- Bus writes do not change the status register. -/
lemma write_u8_status (cpu : CPU) (a v : Nat) (c : CPU)
    (h : cpu.write_u8 a v = some c) : c.status_register = cpu.status_register := by
  unfold CPU.write_u8 at h
  cases hb : cpu.bus.write_u8 a v with
  | none => rw [hb] at h; cases h
  | some b => rw [hb] at h; injection h with h2; subst h2; rfl

/-- Stack pushes do not change the status register. -/
lemma push_u8_status (cpu : CPU) (v : Nat) (c : CPU)
    (h : cpu.push_u8 v = some c) : c.status_register = cpu.status_register := by
  unfold CPU.push_u8 at h
  cases hw : cpu.write_u8 (0x0100 + cpu.stack_pointer) v with
  | none => rw [hw] at h; cases h
  | some c1 =>
      rw [hw] at h
      injection h with h2
      subst h2
      exact write_u8_status cpu _ v c1 hw

/-- 16-bit stack pushes do not change the status register. -/
lemma push_u16_status (cpu : CPU) (v : Nat) (c : CPU)
    (h : cpu.push_u16 v = some c) : c.status_register = cpu.status_register := by
  unfold CPU.push_u16 at h
  simp only [Option.bind_eq_bind] at h
  cases h1 : cpu.push_u8 (v / 256 % 256) with
  | none => rw [h1] at h; simp only [Option.none_bind] at h; cases h
  | some c1 =>
      rw [h1] at h
      simp only [Option.some_bind] at h
      rw [push_u8_status c1 _ c h, push_u8_status cpu _ c1 h1]

/-- Stack pops do not change the status register. -/
lemma pop_u8_status (cpu : CPU) (p : Nat × CPU)
    (h : cpu.pop_u8 = some p) : p.2.status_register = cpu.status_register := by
  unfold CPU.pop_u8 at h
  simp only [Option.bind_eq_bind] at h
  cases hr : cpu.read_u8 (0x0100 + (cpu.stack_pointer + 1) % 256) with
  | none => rw [hr] at h; simp only [Option.none_bind] at h; cases h
  | some v =>
      rw [hr] at h
      simp only [Option.some_bind] at h
      injection h with h2
      subst h2
      rfl

/-- 16-bit stack pops do not change the status register. -/
lemma pop_u16_status (cpu : CPU) (p : Nat × CPU)
    (h : cpu.pop_u16 = some p) : p.2.status_register = cpu.status_register := by
  unfold CPU.pop_u16 at h
  simp only [Option.bind_eq_bind] at h
  cases h1 : cpu.pop_u8 with
  | none => rw [h1] at h; simp only [Option.none_bind] at h; cases h
  | some p1 =>
      rw [h1] at h
      simp only [Option.some_bind] at h
      obtain ⟨lo, c1⟩ := p1
      cases h2 : c1.pop_u8 with
      | none => rw [h2] at h; simp only [Option.none_bind] at h; cases h
      | some p2 =>
          rw [h2] at h
          simp only [Option.some_bind] at h
          obtain ⟨hi, c2⟩ := p2
          injection h with h3
          subst h3
          exact (pop_u8_status c1 (hi, c2) h2).trans (pop_u8_status cpu (lo, c1) h1)

/-- The branch helper does not change the status register. -/
lemma branch_status (cpu : CPU) (cond : Bool) (off : Nat) :
    (cpu.branch cond off).1.status_register = cpu.status_register := by
  unfold CPU.branch
  cases cond
  · rw [if_neg Bool.false_ne_true]
  · rw [if_pos rfl]

/-- A write followed by a pure pair result keeps the status register of
the CPU the write started from. -/
lemma write_then_pair_status (c3 : CPU) (addr result : Nat) (out : CPU × Nat)
    (h : (do
      let c4 ← c3.write_u8 addr result
      some (c4, 0) : Option (CPU × Nat)) = some out) :
    out.1.status_register = c3.status_register := by
  simp only [Option.bind_eq_bind] at h
  cases hw : c3.write_u8 addr result with
  | none => rw [hw] at h; simp only [Option.none_bind] at h; cases h
  | some c4 =>
      rw [hw] at h
      simp only [Option.some_bind] at h
      injection h with h2
      subst h2
      exact write_u8_status c3 addr result c4 hw

/-- The page-cross penalty only touches the cycle counter. -/
lemma penalty_status (cpu : CPU) (crossed : Bool) (name : String) :
    (apply_page_cross_penalty cpu crossed name).status_register = cpu.status_register := by
  unfold apply_page_cross_penalty
  split <;> rfl

/-- A monadic CPU result followed by a pure pair keeps any status value the
underlying computation keeps. -/
lemma bind_pure_pair_status (m : Option CPU) (s : Nat) (out : CPU × Nat)
    (hm : ∀ c, m = some c → c.status_register = s)
    (h : m.bind (fun c1 => some (c1, 0)) = some out) :
    out.1.status_register = s := by
  cases hmm : m with
  | none => rw [hmm] at h; cases h
  | some c1 =>
      rw [hmm] at h
      simp only [Option.some_bind] at h
      injection h with h2
      subst h2
      exact hm c1 hmm

/-- Every handler of the opcode table preserves bits 4 (B) and 5 (U) of
the status register. -/
lemma run_handler_and48 (t : InstrHandler) (cpu : CPU) (v a : Option Nat)
    (out : CPU × Nat) (h : run_handler t cpu v a = some out) :
    out.1.status_register &&& 48 = cpu.status_register &&& 48 := by
  cases t <;> simp only [run_handler] at h
  case adc =>
    unfold handle_adc at h
    cases v with
    | none => simp only [Option.bind_eq_bind, Option.none_bind] at h; cases h
    | some value =>
        simp only [Option.bind_eq_bind, Option.some_bind] at h
        injection h with h2
        subst h2
        simp only [set_carry48, set_zero48, set_interrupt48, set_decimal48,
          set_overflow48, set_negative48]
  case sbc =>
    unfold handle_sbc at h
    cases v with
    | none => simp only [Option.bind_eq_bind, Option.none_bind] at h; cases h
    | some value =>
        simp only [Option.bind_eq_bind, Option.some_bind] at h
        injection h with h2
        subst h2
        simp only [set_carry48, set_zero48, set_interrupt48, set_decimal48,
          set_overflow48, set_negative48]
  case And =>
    unfold handle_and at h
    cases v with
    | none => simp only [Option.bind_eq_bind, Option.none_bind] at h; cases h
    | some value =>
        simp only [Option.bind_eq_bind, Option.some_bind] at h
        injection h with h2
        subst h2
        simp only [set_carry48, set_zero48, set_interrupt48, set_decimal48,
          set_overflow48, set_negative48]
  case ora =>
    unfold handle_ora at h
    cases v with
    | none => simp only [Option.bind_eq_bind, Option.none_bind] at h; cases h
    | some value =>
        simp only [Option.bind_eq_bind, Option.some_bind] at h
        injection h with h2
        subst h2
        simp only [set_carry48, set_zero48, set_interrupt48, set_decimal48,
          set_overflow48, set_negative48]
  case eor =>
    unfold handle_eor at h
    cases v with
    | none => simp only [Option.bind_eq_bind, Option.none_bind] at h; cases h
    | some value =>
        simp only [Option.bind_eq_bind, Option.some_bind] at h
        injection h with h2
        subst h2
        simp only [set_carry48, set_zero48, set_interrupt48, set_decimal48,
          set_overflow48, set_negative48]
  case lda =>
    unfold handle_lda at h
    cases v with
    | none => simp only [Option.bind_eq_bind, Option.none_bind] at h; cases h
    | some value =>
        simp only [Option.bind_eq_bind, Option.some_bind] at h
        injection h with h2
        subst h2
        simp only [set_carry48, set_zero48, set_interrupt48, set_decimal48,
          set_overflow48, set_negative48]
  case ldx =>
    unfold handle_ldx at h
    cases v with
    | none => simp only [Option.bind_eq_bind, Option.none_bind] at h; cases h
    | some value =>
        simp only [Option.bind_eq_bind, Option.some_bind] at h
        injection h with h2
        subst h2
        simp only [set_carry48, set_zero48, set_interrupt48, set_decimal48,
          set_overflow48, set_negative48]
  case ldy =>
    unfold handle_ldy at h
    cases v with
    | none => simp only [Option.bind_eq_bind, Option.none_bind] at h; cases h
    | some value =>
        simp only [Option.bind_eq_bind, Option.some_bind] at h
        injection h with h2
        subst h2
        simp only [set_carry48, set_zero48, set_interrupt48, set_decimal48,
          set_overflow48, set_negative48]
  case cmp =>
    unfold handle_cmp at h
    cases v with
    | none => simp only [Option.bind_eq_bind, Option.none_bind] at h; cases h
    | some value =>
        simp only [Option.bind_eq_bind, Option.some_bind] at h
        injection h with h2
        subst h2
        simp only [set_carry48, set_zero48, set_interrupt48, set_decimal48,
          set_overflow48, set_negative48]
  case cpx =>
    unfold handle_cpx at h
    cases v with
    | none => simp only [Option.bind_eq_bind, Option.none_bind] at h; cases h
    | some value =>
        simp only [Option.bind_eq_bind, Option.some_bind] at h
        injection h with h2
        subst h2
        simp only [set_carry48, set_zero48, set_interrupt48, set_decimal48,
          set_overflow48, set_negative48]
  case cpy =>
    unfold handle_cpy at h
    cases v with
    | none => simp only [Option.bind_eq_bind, Option.none_bind] at h; cases h
    | some value =>
        simp only [Option.bind_eq_bind, Option.some_bind] at h
        injection h with h2
        subst h2
        simp only [set_carry48, set_zero48, set_interrupt48, set_decimal48,
          set_overflow48, set_negative48]
  case bit =>
    unfold handle_bit at h
    cases v with
    | none => simp only [Option.bind_eq_bind, Option.none_bind] at h; cases h
    | some value =>
        simp only [Option.bind_eq_bind, Option.some_bind] at h
        injection h with h2
        subst h2
        simp only [set_carry48, set_zero48, set_interrupt48, set_decimal48,
          set_overflow48, set_negative48]
  case asl =>
    unfold handle_asl at h
    cases v with
    | none => simp only [Option.bind_eq_bind, Option.none_bind] at h; cases h
    | some value =>
        simp only [Option.bind_eq_bind, Option.some_bind] at h
        cases a with
        | none =>
            injection h with h2
            subst h2
            simp only [set_carry48, set_zero48, set_interrupt48, set_decimal48,
              set_overflow48, set_negative48]
        | some addr =>
            have hs := bind_pure_pair_status _ _ out
              (fun c hc => write_u8_status _ _ _ c hc) h
            rw [hs]
            simp only [set_carry48, set_zero48, set_interrupt48, set_decimal48,
              set_overflow48, set_negative48]
  case lsr =>
    unfold handle_lsr at h
    cases v with
    | none => simp only [Option.bind_eq_bind, Option.none_bind] at h; cases h
    | some value =>
        simp only [Option.bind_eq_bind, Option.some_bind] at h
        cases a with
        | none =>
            injection h with h2
            subst h2
            simp only [set_carry48, set_zero48, set_interrupt48, set_decimal48,
              set_overflow48, set_negative48]
        | some addr =>
            have hs := bind_pure_pair_status _ _ out
              (fun c hc => write_u8_status _ _ _ c hc) h
            rw [hs]
            simp only [set_carry48, set_zero48, set_interrupt48, set_decimal48,
              set_overflow48, set_negative48]
  case rol =>
    unfold handle_rol at h
    cases v with
    | none => simp only [Option.bind_eq_bind, Option.none_bind] at h; cases h
    | some value =>
        simp only [Option.bind_eq_bind, Option.some_bind] at h
        cases a with
        | none =>
            injection h with h2
            subst h2
            simp only [set_carry48, set_zero48, set_interrupt48, set_decimal48,
              set_overflow48, set_negative48]
        | some addr =>
            have hs := bind_pure_pair_status _ _ out
              (fun c hc => write_u8_status _ _ _ c hc) h
            rw [hs]
            simp only [set_carry48, set_zero48, set_interrupt48, set_decimal48,
              set_overflow48, set_negative48]
  case ror =>
    unfold handle_ror at h
    cases v with
    | none => simp only [Option.bind_eq_bind, Option.none_bind] at h; cases h
    | some value =>
        simp only [Option.bind_eq_bind, Option.some_bind] at h
        cases a with
        | none =>
            injection h with h2
            subst h2
            simp only [set_carry48, set_zero48, set_interrupt48, set_decimal48,
              set_overflow48, set_negative48]
        | some addr =>
            have hs := bind_pure_pair_status _ _ out
              (fun c hc => write_u8_status _ _ _ c hc) h
            rw [hs]
            simp only [set_carry48, set_zero48, set_interrupt48, set_decimal48,
              set_overflow48, set_negative48]
  case sta =>
    unfold handle_sta at h
    cases a with
    | none => simp only [Option.bind_eq_bind, Option.none_bind] at h; cases h
    | some addr =>
        simp only [Option.bind_eq_bind, Option.some_bind] at h
        have hs := bind_pure_pair_status _ _ out
          (fun c hc => write_u8_status _ _ _ c hc) h
        rw [hs]
  case stx =>
    unfold handle_stx at h
    cases a with
    | none => simp only [Option.bind_eq_bind, Option.none_bind] at h; cases h
    | some addr =>
        simp only [Option.bind_eq_bind, Option.some_bind] at h
        have hs := bind_pure_pair_status _ _ out
          (fun c hc => write_u8_status _ _ _ c hc) h
        rw [hs]
  case sty =>
    unfold handle_sty at h
    cases a with
    | none => simp only [Option.bind_eq_bind, Option.none_bind] at h; cases h
    | some addr =>
        simp only [Option.bind_eq_bind, Option.some_bind] at h
        have hs := bind_pure_pair_status _ _ out
          (fun c hc => write_u8_status _ _ _ c hc) h
        rw [hs]
  case inc =>
    unfold handle_inc at h
    cases v with
    | none => simp only [Option.bind_eq_bind, Option.none_bind] at h; cases h
    | some value =>
        simp only [Option.bind_eq_bind, Option.some_bind] at h
        cases a with
        | none => simp only [Option.none_bind] at h; cases h
        | some addr =>
            simp only [Option.some_bind] at h
            cases hw : cpu.write_u8 addr ((value + 1) % 256) with
            | none => rw [hw] at h; simp only [Option.none_bind] at h; cases h
            | some c1 =>
                rw [hw] at h
                simp only [Option.some_bind] at h
                injection h with h2
                subst h2
                simp only [set_carry48, set_zero48, set_interrupt48, set_decimal48,
                  set_overflow48, set_negative48]
                exact congrArg (fun z => z &&& 48) (write_u8_status _ _ _ c1 hw)
  case dec =>
    unfold handle_dec at h
    cases v with
    | none => simp only [Option.bind_eq_bind, Option.none_bind] at h; cases h
    | some value =>
        simp only [Option.bind_eq_bind, Option.some_bind] at h
        cases a with
        | none => simp only [Option.none_bind] at h; cases h
        | some addr =>
            simp only [Option.some_bind] at h
            cases hw : cpu.write_u8 addr (u8_wrapping_sub value 1) with
            | none => rw [hw] at h; simp only [Option.none_bind] at h; cases h
            | some c1 =>
                rw [hw] at h
                simp only [Option.some_bind] at h
                injection h with h2
                subst h2
                simp only [set_carry48, set_zero48, set_interrupt48, set_decimal48,
                  set_overflow48, set_negative48]
                exact congrArg (fun z => z &&& 48) (write_u8_status _ _ _ c1 hw)
  case inx =>
    unfold handle_inx at h
    injection h with h2
    subst h2
    simp only [set_carry48, set_zero48, set_interrupt48, set_decimal48,
      set_overflow48, set_negative48]
  case iny =>
    unfold handle_iny at h
    injection h with h2
    subst h2
    simp only [set_carry48, set_zero48, set_interrupt48, set_decimal48,
      set_overflow48, set_negative48]
  case dex =>
    unfold handle_dex at h
    injection h with h2
    subst h2
    simp only [set_carry48, set_zero48, set_interrupt48, set_decimal48,
      set_overflow48, set_negative48]
  case dey =>
    unfold handle_dey at h
    injection h with h2
    subst h2
    simp only [set_carry48, set_zero48, set_interrupt48, set_decimal48,
      set_overflow48, set_negative48]
  case tax =>
    unfold handle_tax at h
    injection h with h2
    subst h2
    simp only [set_carry48, set_zero48, set_interrupt48, set_decimal48,
      set_overflow48, set_negative48]
  case tay =>
    unfold handle_tay at h
    injection h with h2
    subst h2
    simp only [set_carry48, set_zero48, set_interrupt48, set_decimal48,
      set_overflow48, set_negative48]
  case tsx =>
    unfold handle_tsx at h
    injection h with h2
    subst h2
    simp only [set_carry48, set_zero48, set_interrupt48, set_decimal48,
      set_overflow48, set_negative48]
  case txa =>
    unfold handle_txa at h
    injection h with h2
    subst h2
    simp only [set_carry48, set_zero48, set_interrupt48, set_decimal48,
      set_overflow48, set_negative48]
  case tya =>
    unfold handle_tya at h
    injection h with h2
    subst h2
    simp only [set_carry48, set_zero48, set_interrupt48, set_decimal48,
      set_overflow48, set_negative48]
  case txs =>
    unfold handle_txs at h
    injection h with h2
    subst h2
    rfl
  case nop =>
    unfold handle_nop at h
    injection h with h2
    subst h2
    rfl
  case clc =>
    unfold handle_clc at h
    injection h with h2
    subst h2
    exact set_carry48 cpu false
  case sec =>
    unfold handle_sec at h
    injection h with h2
    subst h2
    exact set_carry48 cpu true
  case cld =>
    unfold handle_cld at h
    injection h with h2
    subst h2
    exact set_decimal48 cpu false
  case sed =>
    unfold handle_sed at h
    injection h with h2
    subst h2
    exact set_decimal48 cpu true
  case cli =>
    unfold handle_cli at h
    injection h with h2
    subst h2
    exact set_interrupt48 cpu false
  case sei =>
    unfold handle_sei at h
    injection h with h2
    subst h2
    exact set_interrupt48 cpu true
  case clv =>
    unfold handle_clv at h
    injection h with h2
    subst h2
    exact set_overflow48 cpu false
  case bcc =>
    unfold handle_bcc at h
    cases v with
    | none => simp only [Option.bind_eq_bind, Option.none_bind] at h; cases h
    | some value =>
        simp only [Option.bind_eq_bind, Option.some_bind] at h
        injection h with h2
        subst h2
        rw [branch_status]
  case bcs =>
    unfold handle_bcs at h
    cases v with
    | none => simp only [Option.bind_eq_bind, Option.none_bind] at h; cases h
    | some value =>
        simp only [Option.bind_eq_bind, Option.some_bind] at h
        injection h with h2
        subst h2
        rw [branch_status]
  case beq =>
    unfold handle_beq at h
    cases v with
    | none => simp only [Option.bind_eq_bind, Option.none_bind] at h; cases h
    | some value =>
        simp only [Option.bind_eq_bind, Option.some_bind] at h
        injection h with h2
        subst h2
        rw [branch_status]
  case bne =>
    unfold handle_bne at h
    cases v with
    | none => simp only [Option.bind_eq_bind, Option.none_bind] at h; cases h
    | some value =>
        simp only [Option.bind_eq_bind, Option.some_bind] at h
        injection h with h2
        subst h2
        rw [branch_status]
  case bmi =>
    unfold handle_bmi at h
    cases v with
    | none => simp only [Option.bind_eq_bind, Option.none_bind] at h; cases h
    | some value =>
        simp only [Option.bind_eq_bind, Option.some_bind] at h
        injection h with h2
        subst h2
        rw [branch_status]
  case bpl =>
    unfold handle_bpl at h
    cases v with
    | none => simp only [Option.bind_eq_bind, Option.none_bind] at h; cases h
    | some value =>
        simp only [Option.bind_eq_bind, Option.some_bind] at h
        injection h with h2
        subst h2
        rw [branch_status]
  case bvc =>
    unfold handle_bvc at h
    cases v with
    | none => simp only [Option.bind_eq_bind, Option.none_bind] at h; cases h
    | some value =>
        simp only [Option.bind_eq_bind, Option.some_bind] at h
        injection h with h2
        subst h2
        rw [branch_status]
  case bvs =>
    unfold handle_bvs at h
    cases v with
    | none => simp only [Option.bind_eq_bind, Option.none_bind] at h; cases h
    | some value =>
        simp only [Option.bind_eq_bind, Option.some_bind] at h
        injection h with h2
        subst h2
        rw [branch_status]
  case jmp =>
    unfold handle_jmp at h
    cases a with
    | none => simp only [Option.bind_eq_bind, Option.none_bind] at h; cases h
    | some addr =>
        simp only [Option.bind_eq_bind, Option.some_bind] at h
        injection h with h2
        subst h2
        rfl
  case jsr =>
    unfold handle_jsr at h
    cases a with
    | none => simp only [Option.bind_eq_bind, Option.none_bind] at h; cases h
    | some target =>
        simp only [Option.bind_eq_bind, Option.some_bind] at h
        cases hca : u16_checked_add cpu.program_counter 2 with
        | none => rw [hca] at h; simp only [Option.none_bind] at h; cases h
        | some ra =>
            rw [hca] at h
            simp only [Option.some_bind] at h
            cases hp : cpu.push_u16 ra with
            | none => rw [hp] at h; simp only [Option.none_bind] at h; cases h
            | some c1 =>
                rw [hp] at h
                simp only [Option.some_bind] at h
                injection h with h2
                subst h2
                exact congrArg (fun z => z &&& 48) (push_u16_status cpu ra c1 hp)
  case rts =>
    unfold handle_rts at h
    simp only [Option.bind_eq_bind] at h
    cases hq : cpu.pop_u16 with
    | none => rw [hq] at h; simp only [Option.none_bind] at h; cases h
    | some p =>
        rw [hq] at h
        simp only [Option.some_bind] at h
        obtain ⟨ra, c1⟩ := p
        injection h with h2
        subst h2
        exact congrArg (fun z => z &&& 48) (pop_u16_status cpu (ra, c1) hq)
  case pha =>
    unfold handle_pha at h
    simp only [Option.bind_eq_bind] at h
    have hs := bind_pure_pair_status _ _ out
      (fun c hc => push_u8_status _ _ c hc) h
    rw [hs]
  case php =>
    unfold handle_php at h
    simp only [Option.bind_eq_bind] at h
    have hs := bind_pure_pair_status _ _ out
      (fun c hc => push_u8_status _ _ c hc) h
    rw [hs]
  case pla =>
    unfold handle_pla at h
    simp only [Option.bind_eq_bind] at h
    cases hp : cpu.pop_u8 with
    | none => rw [hp] at h; simp only [Option.none_bind] at h; cases h
    | some p =>
        rw [hp] at h
        simp only [Option.some_bind] at h
        obtain ⟨value, c1⟩ := p
        injection h with h2
        subst h2
        simp only [set_carry48, set_zero48, set_interrupt48, set_decimal48,
          set_overflow48, set_negative48]
        exact congrArg (fun z => z &&& 48) (pop_u8_status cpu (value, c1) hp)
  case plp =>
    unfold handle_plp at h
    simp only [Option.bind_eq_bind] at h
    cases hp : cpu.pop_u8 with
    | none => rw [hp] at h; simp only [Option.none_bind] at h; cases h
    | some p =>
        rw [hp] at h
        simp only [Option.some_bind] at h
        obtain ⟨popped, c1⟩ := p
        injection h with h2
        subst h2
        rw [show (0xFF ^^^ ((1 <<< StatusFlag.BreakCommand.bit) ||| (1 <<< StatusFlag.Unused.bit))) = 0xCF from by decide,
          show ((1 <<< StatusFlag.BreakCommand.bit) ||| (1 <<< StatusFlag.Unused.bit)) = 48 from by decide,
          unpack48]
        exact congrArg (fun z => z &&& 48) (pop_u8_status cpu (popped, c1) hp)
  case rti =>
    unfold handle_rti at h
    simp only [Option.bind_eq_bind] at h
    cases hp : cpu.pop_u8 with
    | none => rw [hp] at h; simp only [Option.none_bind] at h; cases h
    | some p =>
        rw [hp] at h
        simp only [Option.some_bind] at h
        obtain ⟨popped, c1⟩ := p
        cases hq : c1.pop_u16 with
        | none => rw [hq] at h; simp only [Option.none_bind] at h; cases h
        | some q =>
            rw [hq] at h
            simp only [Option.some_bind] at h
            obtain ⟨pcv, c2⟩ := q
            injection h with h2
            subst h2
            rw [show (0xFF ^^^ ((1 <<< StatusFlag.BreakCommand.bit) ||| (1 <<< StatusFlag.Unused.bit))) = 0xCF from by decide,
              show ((1 <<< StatusFlag.BreakCommand.bit) ||| (1 <<< StatusFlag.Unused.bit)) = 48 from by decide,
              unpack48]
            show ({ c2 with program_counter := pcv }).status_register &&& 48 = cpu.status_register &&& 48
            have e2 := pop_u16_status c1 (pcv, c2) hq
            have e1 := pop_u8_status cpu (popped, c1) hp
            show c2.status_register &&& 48 = cpu.status_register &&& 48
            rw [show c2.status_register = c1.status_register from e2,
              show c1.status_register = cpu.status_register from e1]
  case brk =>
    unfold handle_brk at h
    simp only [Option.bind_eq_bind] at h
    cases hca : u16_checked_add cpu.program_counter 2 with
    | none => rw [hca] at h; simp only [Option.none_bind] at h; cases h
    | some pc2 =>
        rw [hca] at h
        simp only [Option.some_bind] at h
        cases hp : cpu.push_u16 pc2 with
        | none => rw [hp] at h; simp only [Option.none_bind] at h; cases h
        | some c1 =>
            rw [hp] at h
            simp only [Option.some_bind] at h
            cases hq : c1.push_u8 (c1.status_register ||| (1 <<< StatusFlag.BreakCommand.bit) ||| (1 <<< StatusFlag.Unused.bit)) with
            | none => rw [hq] at h; simp only [Option.none_bind] at h; cases h
            | some c2 =>
                rw [hq] at h
                simp only [Option.some_bind] at h
                cases hr : (c2.set_status_flag .InterruptDisable true).read_u16 0xFFFE with
                | none => rw [hr] at h; simp only [Option.none_bind] at h; cases h
                | some pcv =>
                    rw [hr] at h
                    simp only [Option.some_bind] at h
                    injection h with h2
                    subst h2
                    show (c2.set_status_flag .InterruptDisable true).status_register &&& 48 = cpu.status_register &&& 48
                    rw [set_interrupt48]
                    rw [show c2.status_register = c1.status_register from push_u8_status c1 _ c2 hq,
                      show c1.status_register = cpu.status_register from push_u16_status cpu pc2 c1 hp]

/-- The tail of a run-loop iteration (handler dispatch, cycle accounting,
PC advance) preserves bits 4 and 5 of the status register. -/
lemma step_tail_and48 (oi : Operand) (pc0 : Nat) (cpu1 : CPU)
    (v a : Option Nat) (cpu' : CPU)
    (h : (do
      let (cpu2, handler_extra) ← run_handler oi.handler cpu1 v a
      let cpu3 := { cpu2 with cycles := cpu2.cycles + oi.cycles + handler_extra }
      if cpu3.program_counter = pc0 then do
        let npc ← u16_checked_add pc0 oi.bytes
        some { cpu3 with program_counter := npc }
      else
        some cpu3) = some cpu') :
    cpu'.status_register &&& 48 = cpu1.status_register &&& 48 := by
  simp only [Option.bind_eq_bind] at h
  cases hh : run_handler oi.handler cpu1 v a with
  | none => rw [hh] at h; simp only [Option.none_bind] at h; cases h
  | some out =>
      rw [hh] at h
      simp only [Option.some_bind] at h
      obtain ⟨cpu2, handler_extra⟩ := out
      have hpres := run_handler_and48 oi.handler cpu1 v a (cpu2, handler_extra) hh
      split at h
      · cases hnpc : u16_checked_add pc0 oi.bytes with
        | none => rw [hnpc] at h; simp only [Option.none_bind] at h; cases h
        | some npc =>
            rw [hnpc] at h
            simp only [Option.some_bind] at h
            injection h with h2
            subst h2
            exact hpres
      · injection h with h2
        subst h2
        exact hpres

/-- One run-loop iteration preserves bits 4 and 5 of the status register. -/
lemma step_and48 (cpu cpu' : CPU) (h : step cpu = some cpu') :
    cpu'.status_register &&& 48 = cpu.status_register &&& 48 := by
  unfold step at h
  simp only [Option.bind_eq_bind] at h
  cases ho : cpu.read_u8 cpu.program_counter with
  | none => rw [ho] at h; simp only [Option.none_bind] at h; cases h
  | some opcode =>
      rw [ho] at h
      simp only [Option.some_bind] at h
      cases hoi : OPERAND_MAP opcode with
      | none => rw [hoi] at h; simp only [Option.none_bind] at h; cases h
      | some oi =>
          rw [hoi] at h
          simp only [Option.some_bind] at h
          cases hmode : oi.addressing_mode with
          | Implicit =>
              rw [hmode] at h
              simp only [Option.some_bind] at h
              exact step_tail_and48 oi cpu.program_counter cpu none none cpu' h
          | Accumulator =>
              rw [hmode] at h
              simp only [Option.some_bind] at h
              exact step_tail_and48 oi cpu.program_counter cpu
                (some cpu.accumulator) none cpu' h
          | Absolute =>
              rw [hmode] at h
              simp only [Option.bind_eq_bind] at h
              cases ha1 : u16_checked_add cpu.program_counter 1 with
              | none => rw [ha1] at h; simp only [Option.none_bind] at h; cases h
              | some a1 =>
                  rw [ha1] at h
                  simp only [Option.some_bind] at h
                  cases hga : cpu.get_operand_address .Absolute a1 with
                  | none => rw [hga] at h; simp only [Option.none_bind] at h; cases h
                  | some pr =>
                      rw [hga] at h
                      simp only [Option.some_bind] at h
                      obtain ⟨addr, crossed⟩ := pr
                      cases hv : (apply_page_cross_penalty cpu crossed oi.name).read_u8 addr with
                      | none => rw [hv] at h; simp only [Option.none_bind] at h; cases h
                      | some vv =>
                          rw [hv] at h
                          simp only [Option.some_bind] at h
                          have := step_tail_and48 oi cpu.program_counter
                            (apply_page_cross_penalty cpu crossed oi.name)
                            (some vv) (some addr) cpu' h
                          rw [this, penalty_status]
          | AbsoluteX =>
              rw [hmode] at h
              simp only [Option.bind_eq_bind] at h
              cases ha1 : u16_checked_add cpu.program_counter 1 with
              | none => rw [ha1] at h; simp only [Option.none_bind] at h; cases h
              | some a1 =>
                  rw [ha1] at h
                  simp only [Option.some_bind] at h
                  cases hga : cpu.get_operand_address .AbsoluteX a1 with
                  | none => rw [hga] at h; simp only [Option.none_bind] at h; cases h
                  | some pr =>
                      rw [hga] at h
                      simp only [Option.some_bind] at h
                      obtain ⟨addr, crossed⟩ := pr
                      cases hv : (apply_page_cross_penalty cpu crossed oi.name).read_u8 addr with
                      | none => rw [hv] at h; simp only [Option.none_bind] at h; cases h
                      | some vv =>
                          rw [hv] at h
                          simp only [Option.some_bind] at h
                          have := step_tail_and48 oi cpu.program_counter
                            (apply_page_cross_penalty cpu crossed oi.name)
                            (some vv) (some addr) cpu' h
                          rw [this, penalty_status]
          | AbsoluteY =>
              rw [hmode] at h
              simp only [Option.bind_eq_bind] at h
              cases ha1 : u16_checked_add cpu.program_counter 1 with
              | none => rw [ha1] at h; simp only [Option.none_bind] at h; cases h
              | some a1 =>
                  rw [ha1] at h
                  simp only [Option.some_bind] at h
                  cases hga : cpu.get_operand_address .AbsoluteY a1 with
                  | none => rw [hga] at h; simp only [Option.none_bind] at h; cases h
                  | some pr =>
                      rw [hga] at h
                      simp only [Option.some_bind] at h
                      obtain ⟨addr, crossed⟩ := pr
                      cases hv : (apply_page_cross_penalty cpu crossed oi.name).read_u8 addr with
                      | none => rw [hv] at h; simp only [Option.none_bind] at h; cases h
                      | some vv =>
                          rw [hv] at h
                          simp only [Option.some_bind] at h
                          have := step_tail_and48 oi cpu.program_counter
                            (apply_page_cross_penalty cpu crossed oi.name)
                            (some vv) (some addr) cpu' h
                          rw [this, penalty_status]
          | Immediate =>
              rw [hmode] at h
              simp only [Option.bind_eq_bind] at h
              cases ha1 : u16_checked_add cpu.program_counter 1 with
              | none => rw [ha1] at h; simp only [Option.none_bind] at h; cases h
              | some a1 =>
                  rw [ha1] at h
                  simp only [Option.some_bind] at h
                  cases hga : cpu.get_operand_address .Immediate a1 with
                  | none => rw [hga] at h; simp only [Option.none_bind] at h; cases h
                  | some pr =>
                      rw [hga] at h
                      simp only [Option.some_bind] at h
                      obtain ⟨addr, crossed⟩ := pr
                      cases hv : (apply_page_cross_penalty cpu crossed oi.name).read_u8 addr with
                      | none => rw [hv] at h; simp only [Option.none_bind] at h; cases h
                      | some vv =>
                          rw [hv] at h
                          simp only [Option.some_bind] at h
                          have := step_tail_and48 oi cpu.program_counter
                            (apply_page_cross_penalty cpu crossed oi.name)
                            (some vv) (some addr) cpu' h
                          rw [this, penalty_status]
          | Indirect =>
              rw [hmode] at h
              simp only [Option.bind_eq_bind] at h
              cases ha1 : u16_checked_add cpu.program_counter 1 with
              | none => rw [ha1] at h; simp only [Option.none_bind] at h; cases h
              | some a1 =>
                  rw [ha1] at h
                  simp only [Option.some_bind] at h
                  cases hga : cpu.get_operand_address .Indirect a1 with
                  | none => rw [hga] at h; simp only [Option.none_bind] at h; cases h
                  | some pr =>
                      rw [hga] at h
                      simp only [Option.some_bind] at h
                      obtain ⟨addr, crossed⟩ := pr
                      cases hv : (apply_page_cross_penalty cpu crossed oi.name).read_u8 addr with
                      | none => rw [hv] at h; simp only [Option.none_bind] at h; cases h
                      | some vv =>
                          rw [hv] at h
                          simp only [Option.some_bind] at h
                          have := step_tail_and48 oi cpu.program_counter
                            (apply_page_cross_penalty cpu crossed oi.name)
                            (some vv) (some addr) cpu' h
                          rw [this, penalty_status]
          | IndirectX =>
              rw [hmode] at h
              simp only [Option.bind_eq_bind] at h
              cases ha1 : u16_checked_add cpu.program_counter 1 with
              | none => rw [ha1] at h; simp only [Option.none_bind] at h; cases h
              | some a1 =>
                  rw [ha1] at h
                  simp only [Option.some_bind] at h
                  cases hga : cpu.get_operand_address .IndirectX a1 with
                  | none => rw [hga] at h; simp only [Option.none_bind] at h; cases h
                  | some pr =>
                      rw [hga] at h
                      simp only [Option.some_bind] at h
                      obtain ⟨addr, crossed⟩ := pr
                      cases hv : (apply_page_cross_penalty cpu crossed oi.name).read_u8 addr with
                      | none => rw [hv] at h; simp only [Option.none_bind] at h; cases h
                      | some vv =>
                          rw [hv] at h
                          simp only [Option.some_bind] at h
                          have := step_tail_and48 oi cpu.program_counter
                            (apply_page_cross_penalty cpu crossed oi.name)
                            (some vv) (some addr) cpu' h
                          rw [this, penalty_status]
          | IndirectY =>
              rw [hmode] at h
              simp only [Option.bind_eq_bind] at h
              cases ha1 : u16_checked_add cpu.program_counter 1 with
              | none => rw [ha1] at h; simp only [Option.none_bind] at h; cases h
              | some a1 =>
                  rw [ha1] at h
                  simp only [Option.some_bind] at h
                  cases hga : cpu.get_operand_address .IndirectY a1 with
                  | none => rw [hga] at h; simp only [Option.none_bind] at h; cases h
                  | some pr =>
                      rw [hga] at h
                      simp only [Option.some_bind] at h
                      obtain ⟨addr, crossed⟩ := pr
                      cases hv : (apply_page_cross_penalty cpu crossed oi.name).read_u8 addr with
                      | none => rw [hv] at h; simp only [Option.none_bind] at h; cases h
                      | some vv =>
                          rw [hv] at h
                          simp only [Option.some_bind] at h
                          have := step_tail_and48 oi cpu.program_counter
                            (apply_page_cross_penalty cpu crossed oi.name)
                            (some vv) (some addr) cpu' h
                          rw [this, penalty_status]
          | Relative =>
              rw [hmode] at h
              simp only [Option.bind_eq_bind] at h
              cases ha1 : u16_checked_add cpu.program_counter 1 with
              | none => rw [ha1] at h; simp only [Option.none_bind] at h; cases h
              | some a1 =>
                  rw [ha1] at h
                  simp only [Option.some_bind] at h
                  cases hga : cpu.get_operand_address .Relative a1 with
                  | none => rw [hga] at h; simp only [Option.none_bind] at h; cases h
                  | some pr =>
                      rw [hga] at h
                      simp only [Option.some_bind] at h
                      obtain ⟨addr, crossed⟩ := pr
                      cases hv : (apply_page_cross_penalty cpu crossed oi.name).read_u8 addr with
                      | none => rw [hv] at h; simp only [Option.none_bind] at h; cases h
                      | some vv =>
                          rw [hv] at h
                          simp only [Option.some_bind] at h
                          have := step_tail_and48 oi cpu.program_counter
                            (apply_page_cross_penalty cpu crossed oi.name)
                            (some vv) (some addr) cpu' h
                          rw [this, penalty_status]
          | ZeroPage =>
              rw [hmode] at h
              simp only [Option.bind_eq_bind] at h
              cases ha1 : u16_checked_add cpu.program_counter 1 with
              | none => rw [ha1] at h; simp only [Option.none_bind] at h; cases h
              | some a1 =>
                  rw [ha1] at h
                  simp only [Option.some_bind] at h
                  cases hga : cpu.get_operand_address .ZeroPage a1 with
                  | none => rw [hga] at h; simp only [Option.none_bind] at h; cases h
                  | some pr =>
                      rw [hga] at h
                      simp only [Option.some_bind] at h
                      obtain ⟨addr, crossed⟩ := pr
                      cases hv : (apply_page_cross_penalty cpu crossed oi.name).read_u8 addr with
                      | none => rw [hv] at h; simp only [Option.none_bind] at h; cases h
                      | some vv =>
                          rw [hv] at h
                          simp only [Option.some_bind] at h
                          have := step_tail_and48 oi cpu.program_counter
                            (apply_page_cross_penalty cpu crossed oi.name)
                            (some vv) (some addr) cpu' h
                          rw [this, penalty_status]
          | ZeroPageX =>
              rw [hmode] at h
              simp only [Option.bind_eq_bind] at h
              cases ha1 : u16_checked_add cpu.program_counter 1 with
              | none => rw [ha1] at h; simp only [Option.none_bind] at h; cases h
              | some a1 =>
                  rw [ha1] at h
                  simp only [Option.some_bind] at h
                  cases hga : cpu.get_operand_address .ZeroPageX a1 with
                  | none => rw [hga] at h; simp only [Option.none_bind] at h; cases h
                  | some pr =>
                      rw [hga] at h
                      simp only [Option.some_bind] at h
                      obtain ⟨addr, crossed⟩ := pr
                      cases hv : (apply_page_cross_penalty cpu crossed oi.name).read_u8 addr with
                      | none => rw [hv] at h; simp only [Option.none_bind] at h; cases h
                      | some vv =>
                          rw [hv] at h
                          simp only [Option.some_bind] at h
                          have := step_tail_and48 oi cpu.program_counter
                            (apply_page_cross_penalty cpu crossed oi.name)
                            (some vv) (some addr) cpu' h
                          rw [this, penalty_status]
          | ZeroPageY =>
              rw [hmode] at h
              simp only [Option.bind_eq_bind] at h
              cases ha1 : u16_checked_add cpu.program_counter 1 with
              | none => rw [ha1] at h; simp only [Option.none_bind] at h; cases h
              | some a1 =>
                  rw [ha1] at h
                  simp only [Option.some_bind] at h
                  cases hga : cpu.get_operand_address .ZeroPageY a1 with
                  | none => rw [hga] at h; simp only [Option.none_bind] at h; cases h
                  | some pr =>
                      rw [hga] at h
                      simp only [Option.some_bind] at h
                      obtain ⟨addr, crossed⟩ := pr
                      cases hv : (apply_page_cross_penalty cpu crossed oi.name).read_u8 addr with
                      | none => rw [hv] at h; simp only [Option.none_bind] at h; cases h
                      | some vv =>
                          rw [hv] at h
                          simp only [Option.some_bind] at h
                          have := step_tail_and48 oi cpu.program_counter
                            (apply_page_cross_penalty cpu crossed oi.name)
                            (some vv) (some addr) cpu' h
                          rw [this, penalty_status]

/-- Claim C8: from any state with status bit 4 (B) clear and bit 5 (U) set,
one executed instruction (a run-loop iteration) leaves bit 4 clear and
bit 5 set; in particular the PLP and RTI handlers keep the current B and U
bits of P rather than taking them from the popped byte. -/
theorem c8_b_u_invariant (cpu cpu' : CPU) (hstep : step cpu = some cpu')
    (h4 : cpu.status_register.testBit 4 = false)
    (h5 : cpu.status_register.testBit 5 = true) :
    (cpu'.status_register.testBit 4 = false ∧ cpu'.status_register.testBit 5 = true) ∧
    (∀ v a out, run_handler .plp cpu v a = some out →
      out.1.status_register &&& 48 = cpu.status_register &&& 48) ∧
    (∀ v a out, run_handler .rti cpu v a = some out →
      out.1.status_register &&& 48 = cpu.status_register &&& 48) := by
  refine ⟨?_, fun v a out hh => run_handler_and48 .plp cpu v a out hh,
    fun v a out hh => run_handler_and48 .rti cpu v a out hh⟩
  have hp := step_and48 cpu cpu' hstep
  have k4 := congrArg (fun z => z.testBit 4) hp
  have k5 := congrArg (fun z => z.testBit 5) hp
  simp only [Nat.testBit_and] at k4 k5
  rw [show Nat.testBit 48 4 = true from by decide] at k4
  rw [show Nat.testBit 48 5 = true from by decide] at k5
  simp only [Bool.and_true] at k4 k5
  exact ⟨k4.trans h4, k5.trans h5⟩

/-- Witness for C8: a NOP executed at $8000 keeps B clear and U set. -/
theorem c8_b_u_invariant_witness :
    step nopCpu = some nopCpuAfter ∧
    nopCpu.status_register.testBit 4 = false ∧
    nopCpu.status_register.testBit 5 = true ∧
    nopCpuAfter.status_register.testBit 4 = false ∧
    nopCpuAfter.status_register.testBit 5 = true := by
  have hstep : step nopCpu = some nopCpuAfter := rfl
  have h := c8_b_u_invariant nopCpu nopCpuAfter hstep (by decide) (by decide)
  exact ⟨hstep, by decide, by decide, h.1.1, h.1.2⟩

/-- Claim C2 (code bug): no KIL/JAM opcode has an entry in the static
opcode table, and the CPU state has no `halted` flag at all, so fetching a
KIL opcode makes the run loop panic (`Unimplemented opcode`) instead of
setting `halted` and exiting cleanly. -/
theorem c2_kil_panics :
    (kil_opcodes.all (fun op => (OPERAND_MAP op).isNone)) = true ∧
    step kilCpu = none :=
  ⟨by decide, rfl⟩

/-- Claim C3 (code bug): none of the required unofficial opcodes has an
entry in the static opcode table, so fetching any of them (e.g. the
unofficial SBC $EB) panics in the execution loop instead of dispatching to
a handler. -/
theorem c3_unofficial_unmapped :
    (unofficial_min_opcodes.all (fun op => (OPERAND_MAP op).isNone)) = true ∧
    OPERAND_MAP 0xEB = none ∧
    step ebCpu = none :=
  ⟨by decide, by decide, rfl⟩

set_option maxRecDepth 4000 in
/-- Claim C4: for every table entry that reaches the resolver (every mode
except Implicit and Accumulator, which skip it), the loop adds exactly one
extra cycle iff the resolver crossed a page and the mnemonic is in the
claim's read-family; store and RMW mnemonics never receive the penalty. -/

theorem c4_page_cross_penalty_loop :
    ∀ op e, OPERAND_MAP op = some e →
      e.addressing_mode ≠ AddressingMode.Implicit →
      e.addressing_mode ≠ AddressingMode.Accumulator →
      ∀ (cpu : CPU) (crossed : Bool),
        (apply_page_cross_penalty cpu crossed e.name).cycles =
          cpu.cycles + (if crossed && claim_read_family e.name then 1 else 0) := by
  intro op e h hI hA cpu crossed
  have key : ∀ p ∈ OPERAND_LIST,
      p.2.addressing_mode ≠ AddressingMode.Implicit →
      p.2.addressing_mode ≠ AddressingMode.Accumulator →
      page_cross_penalty p.2.name = claim_read_family p.2.name := by decide
  unfold OPERAND_MAP at h
  cases hf : OPERAND_LIST.find? (fun x => x.1 == op) with
  | none => rw [hf] at h; cases h
  | some p =>
      rw [hf] at h
      simp only [Option.map_some'] at h
      injection h with h2
      subst h2
      have hpc := key p (List.mem_of_find?_eq_some hf) hI hA
      unfold apply_page_cross_penalty
      rw [hpc]
      split
      case isTrue hc => rfl
      case isFalse hc => exact (Nat.add_zero _).symm

/-- Witness for C4: LDA absolute,X ($BD) with a crossed page pays one
extra cycle. -/
theorem c4_page_cross_penalty_loop_witness :
    (apply_page_cross_penalty cexCpu true "LDA").cycles = cexCpu.cycles + 1 := by
  have h := c4_page_cross_penalty_loop 0xBD
    (mkOp 0xBD "LDA" InstrHandler.lda AddressingMode.AbsoluteX 3 4).2
    (by decide) (by decide) (by decide) cexCpu true
  have h2 : cexCpu.cycles + (if true && claim_read_family "LDA" then 1 else 0) =
      cexCpu.cycles + 1 := by decide
  exact h.trans h2

/-- OR-ing a mask in makes every bit of the mask read back as set. -/
lemma nat_or_and_self (P m : Nat) : (P ||| m) &&& m = m := by
  apply Nat.eq_of_testBit_eq
  intro i
  simp only [Nat.testBit_and, Nat.testBit_or]
  cases hP : P.testBit i <;> cases hm : m.testBit i <;> simp

/-- AND distributes over OR on naturals, bitwise. -/
lemma nat_or_and_distrib (a b c : Nat) : (a ||| b) &&& c = (a &&& c) ||| (b &&& c) := by
  apply Nat.eq_of_testBit_eq
  intro i
  simp only [Nat.testBit_and, Nat.testBit_or]
  cases ha : a.testBit i <;> cases hb : b.testBit i <;> cases hc : c.testBit i <;> simp

/-- Reading back the flag just written returns the written value. -/
lemma get_set_same (cpu : CPU) (f : StatusFlag) (b : Bool) :
    (cpu.set_status_flag f b).get_status_flag f = b := by
  unfold CPU.set_status_flag CPU.get_status_flag
  cases b
  · rw [if_neg Bool.false_ne_true, Nat.and_assoc]
    have hz : (0xFF ^^^ (1 <<< f.bit)) &&& (1 <<< f.bit) = 0 := by cases f <;> decide
    rw [hz, Nat.and_zero]
    rfl
  · rw [if_pos rfl, nat_or_and_self]
    cases f <;> decide

/-- Writing one flag leaves every other flag unchanged. -/
lemma get_set_other (cpu : CPU) (f g : StatusFlag) (b : Bool)
    (hfg : f.bit ≠ g.bit) :
    (cpu.set_status_flag f b).get_status_flag g = cpu.get_status_flag g := by
  unfold CPU.set_status_flag CPU.get_status_flag
  cases b
  · rw [if_neg Bool.false_ne_true, Nat.and_assoc]
    have hk : (0xFF ^^^ (1 <<< f.bit)) &&& (1 <<< g.bit) = (1 <<< g.bit) := by
      cases f <;> cases g <;> first | decide | exact absurd rfl hfg
    rw [hk]
  · rw [if_pos rfl, nat_or_and_distrib]
    have hd : (1 <<< f.bit) &&& (1 <<< g.bit) = 0 := by
      cases f <;> cases g <;> first | decide | exact absurd rfl hfg
    rw [hd, Nat.or_zero]

/-- Boolean equality test against zero agrees with the decidable
proposition. -/
lemma beq_zero_decide (r : Nat) : (r == 0) = decide (r = 0) := by
  by_cases h : r = 0 <;> simp [h]

/-- For a byte, testing bit 7 by masking agrees with `128 ≤ r`. -/
lemma and128_ne (r : Nat) (h : r < 256) : ((r &&& 0x80) != 0) = decide (128 ≤ r) := by
  have h1 := Nat.and_two_pow r 7
  rw [Nat.testBit_to_div_mod] at h1
  rw [show (0x80 : Nat) = 2 ^ 7 from by norm_num, h1]
  by_cases hd : r / 2 ^ 7 % 2 = 1
  · rw [decide_eq_true hd, decide_eq_true (show (2 : Nat) ^ 7 ≤ r from by omega)]
    decide
  · rw [decide_eq_false hd, decide_eq_false (show ¬((2 : Nat) ^ 7 ≤ r) from by omega)]
    decide

/-- The signed-overflow boolean of the handlers agrees with the claim's
sign condition. -/
lemma overflow_decide (A m r : Nat) (hA : A < 256) (hm : m < 256) (hr : r < 256) :
    ((i8_nonneg A && i8_nonneg m && !(i8_nonneg r)) ||
     (!(i8_nonneg A) && !(i8_nonneg m) && i8_nonneg r))
    = decide ((A < 128 ∧ m < 128 ∧ 128 ≤ r) ∨ (128 ≤ A ∧ 128 ≤ m ∧ r < 128)) := by
  unfold i8_nonneg
  rw [Nat.mod_eq_of_lt hA, Nat.mod_eq_of_lt hm, Nat.mod_eq_of_lt hr]
  rw [Bool.eq_iff_iff]
  simp only [Bool.or_eq_true, Bool.and_eq_true, Bool.not_eq_true', decide_eq_true_eq,
    decide_eq_false_iff_not]
  omega

/-- Reading C back from the C-Z-N-V update chain of ADC/SBC. -/
lemma chain4_carry (cpu : CPU) (b1 b2 b3 b4 : Bool) :
    ((((cpu.set_status_flag .Carry b1).set_status_flag .Zero b2).set_status_flag
      .Negative b3).set_status_flag .Overflow b4).get_status_flag .Carry = b1 := by
  rw [get_set_other _ .Overflow .Carry b4 (by decide),
    get_set_other _ .Negative .Carry b3 (by decide),
    get_set_other _ .Zero .Carry b2 (by decide),
    get_set_same]

/-- Reading Z back from the C-Z-N-V update chain of ADC/SBC. -/
lemma chain4_zero (cpu : CPU) (b1 b2 b3 b4 : Bool) :
    ((((cpu.set_status_flag .Carry b1).set_status_flag .Zero b2).set_status_flag
      .Negative b3).set_status_flag .Overflow b4).get_status_flag .Zero = b2 := by
  rw [get_set_other _ .Overflow .Zero b4 (by decide),
    get_set_other _ .Negative .Zero b3 (by decide),
    get_set_same]

/-- Reading N back from the C-Z-N-V update chain of ADC/SBC. -/
lemma chain4_negative (cpu : CPU) (b1 b2 b3 b4 : Bool) :
    ((((cpu.set_status_flag .Carry b1).set_status_flag .Zero b2).set_status_flag
      .Negative b3).set_status_flag .Overflow b4).get_status_flag .Negative = b3 := by
  rw [get_set_other _ .Overflow .Negative b4 (by decide),
    get_set_same]

/-- Reading V back from the C-Z-N-V update chain of ADC/SBC. -/
lemma chain4_overflow (cpu : CPU) (b1 b2 b3 b4 : Bool) :
    ((((cpu.set_status_flag .Carry b1).set_status_flag .Zero b2).set_status_flag
      .Negative b3).set_status_flag .Overflow b4).get_status_flag .Overflow = b4 :=
  get_set_same _ .Overflow b4

/-- Claim C5: ADC adds A, the operand and the carry-in; the low byte goes
to A, C is the 8-bit carry-out, Z and N follow the result and V is the
agree-and-differ sign condition on the operand as added; SBC is exactly
ADC of the bitwise complement of the operand. -/
theorem c5_adc_sbc (cpu : CPU) (m : Nat) (oa : Option Nat)
    (hA : cpu.accumulator < 256) (hm : m < 256) :
    (∃ c', handle_adc cpu (some m) oa = some (c', 0) ∧
      c'.accumulator =
        (cpu.accumulator + m + (if cpu.get_status_flag .Carry then 1 else 0)) % 256 ∧
      c'.get_status_flag .Carry =
        decide (255 < cpu.accumulator + m + (if cpu.get_status_flag .Carry then 1 else 0)) ∧
      c'.get_status_flag .Zero =
        decide ((cpu.accumulator + m + (if cpu.get_status_flag .Carry then 1 else 0)) % 256 = 0) ∧
      c'.get_status_flag .Negative =
        decide (128 ≤ (cpu.accumulator + m + (if cpu.get_status_flag .Carry then 1 else 0)) % 256) ∧
      c'.get_status_flag .Overflow =
        decide ((cpu.accumulator < 128 ∧ m < 128 ∧
            128 ≤ (cpu.accumulator + m + (if cpu.get_status_flag .Carry then 1 else 0)) % 256) ∨
          (128 ≤ cpu.accumulator ∧ 128 ≤ m ∧
            (cpu.accumulator + m + (if cpu.get_status_flag .Carry then 1 else 0)) % 256 < 128))) ∧
    handle_sbc cpu (some m) oa = handle_adc cpu (some (u8_not m)) oa := by
  constructor
  · refine ⟨_, rfl, rfl, ?_, ?_, ?_, ?_⟩
    · exact chain4_carry _ _ _ _ _
    · exact (chain4_zero _ _ _ _ _).trans (beq_zero_decide _)
    · exact (chain4_negative _ _ _ _ _).trans
        (and128_ne _ (Nat.mod_lt _ (by norm_num)))
    · exact (chain4_overflow _ _ _ _ _).trans
        (overflow_decide _ _ _ hA hm (Nat.mod_lt _ (by norm_num)))
  · rfl

/-- Witness for C5: `ADC #$30` with A = $50 and C = 1 yields A = $81,
C = 0, Z = 0, N = 1, V = 1. -/
theorem c5_adc_sbc_witness :
    ∃ c', handle_adc adcCpu (some 0x30) none = some (c', 0) ∧
      c'.accumulator = 0x81 ∧
      c'.get_status_flag .Carry = false ∧
      c'.get_status_flag .Zero = false ∧
      c'.get_status_flag .Negative = true ∧
      c'.get_status_flag .Overflow = true := by
  obtain ⟨c', h1, h2, h3, h4, h5, h6⟩ :=
    (c5_adc_sbc adcCpu 0x30 none (by decide) (by decide)).1
  refine ⟨c', h1, ?_, ?_, ?_, ?_, ?_⟩
  · rw [h2]; decide
  · rw [h3]; decide
  · rw [h4]; decide
  · rw [h5]; decide
  · rw [h6]; decide

/-- Claim C6: the Indirect resolver reads the 16-bit pointer at the
operand address; when the pointer's low byte is $FF the high byte of the
effective address is fetched from `pointer &&& $FF00` (same page, offset
0) rather than `pointer + 1`, and JMP sets PC to that address. -/
theorem c6_indirect_page_bug (cpu : CPU) (addr ptr lo hi : Nat)
    (hptr : cpu.read_u16 addr = some ptr)
    (hff : ptr &&& 0x00FF = 0x00FF)
    (hlo : cpu.read_u8 ptr = some lo)
    (hhi : cpu.read_u8 (ptr &&& 0xFF00) = some hi) :
    cpu.get_operand_address .Indirect addr = some (u16_from_le lo hi, false) ∧
    (∀ out, handle_jmp cpu none (some (u16_from_le lo hi)) = some out →
      out.1.program_counter = u16_from_le lo hi) := by
  constructor
  · show (do
      let ptr ← cpu.read_u16 addr
      let lo ← cpu.read_u8 ptr
      let hi ←
        if ptr &&& 0x00FF = 0x00FF then
          cpu.read_u8 (ptr &&& 0xFF00)
        else do
          let a1 ← u16_checked_add ptr 1
          cpu.read_u8 a1
      some (u16_from_le lo hi, false) : Option (Nat × Bool)) = some (u16_from_le lo hi, false)
    simp only [Option.bind_eq_bind]
    rw [hptr]
    simp only [Option.some_bind]
    rw [hlo]
    simp only [Option.some_bind]
    rw [if_pos hff, hhi]
    simp only [Option.some_bind]
  · intro out hj
    unfold handle_jmp at hj
    simp only [Option.bind_eq_bind, Option.some_bind] at hj
    injection hj with h2
    subst h2
    rfl

/-- Witness for C6: with $10FF = $CD and $1000 = $AB the Indirect resolver
returns $ABCD (not $99CD), and JMP sets PC to $ABCD. -/
theorem c6_indirect_page_bug_witness :
    jmpCpu.get_operand_address .Indirect 0x0401 = some (0xABCD, false) ∧
    (∀ out, handle_jmp jmpCpu none (some 0xABCD) = some out →
      out.1.program_counter = 0xABCD) := by
  have h := c6_indirect_page_bug jmpCpu 0x0401 0x10FF 0xCD 0xAB
    (by decide) (by decide) (by decide) (by decide)
  exact ⟨h.1, h.2⟩

/-- Masking with $FF00 extracts the high byte (times 256). -/
lemma and_FF00 (a : Nat) : a &&& 0xFF00 = a / 256 % 256 * 256 := by
  apply Nat.eq_of_testBit_eq
  intro i
  rw [Nat.testBit_and]
  rw [show a / 256 % 256 * 256 = 2 ^ 8 * (a / 2 ^ 8 % 2 ^ 8) from by
    norm_num [Nat.mul_comm]]
  rw [Nat.testBit_mul_pow_two, Nat.testBit_mod_two_pow]
  rw [show a / 2 ^ 8 = a >>> 8 from (Nat.shiftRight_eq_div_pow a 8).symm]
  rw [Nat.testBit_shiftRight]
  by_cases h8 : 8 ≤ i
  · by_cases h16 : i < 16
    · rw [show 8 + (i - 8) = i from by omega]
      rw [show Nat.testBit 0xFF00 i = true from by interval_cases i <;> decide]
      rw [decide_eq_true (show i ≥ 8 from h8),
        decide_eq_true (show i - 8 < 8 from by omega)]
      simp
    · rw [show Nat.testBit 0xFF00 i = false from
        Nat.testBit_lt_two_pow (show (0xFF00 : Nat) < 2 ^ i from
          lt_of_lt_of_le (show (0xFF00 : Nat) < 2 ^ 16 from by norm_num)
            (Nat.pow_le_pow_right (by norm_num) (by omega)))]
      rw [decide_eq_false (show ¬(i - 8 < 8) from by omega)]
      simp
  · have h8' : i < 8 := by omega
    rw [show Nat.testBit 0xFF00 i = false from by interval_cases i <;> decide]
    rw [decide_eq_false (show ¬(i ≥ 8) from h8)]
    simp

/-- The source's page-cross test agrees with comparing high bytes. -/
lemma page_crossed_iff (c : CPU) (a b : Nat) :
    c.page_crossed a b = decide (a / 256 % 256 ≠ b / 256 % 256) := by
  unfold CPU.page_crossed
  rw [and_FF00, and_FF00]
  by_cases h : a / 256 % 256 = b / 256 % 256
  · rw [h, decide_eq_false (show ¬(b / 256 % 256 ≠ b / 256 % 256) from by simp)]
    simp
  · rw [decide_eq_true (show a / 256 % 256 ≠ b / 256 % 256 from h)]
    have hne : a / 256 % 256 * 256 ≠ b / 256 % 256 * 256 := by
      intro hc
      exact h (by omega)
    simp [bne_iff_ne, hne]

/-- Claim C7: a branch not taken returns 0 extra cycles and leaves the CPU
unchanged (PC then advances normally in the loop); a branch taken jumps to
`(PC + 2) + signed offset` for one extra cycle, plus another when the high
byte of the target differs from the high byte of `PC + 2`; every branch
handler is the shared helper applied to its flag condition. -/
theorem c7_branch_semantics (cpu : CPU) (cond : Bool) (off : Nat) (oa : Option Nat) :
    (cond = false → cpu.branch cond off = (cpu, 0)) ∧
    (cond = true →
      cpu.branch cond off =
        ({ cpu with program_counter :=
            ((cpu.program_counter + 2) % 65536 + i8_as_u16 off) % 65536 },
          1 + if ((cpu.program_counter + 2) % 65536) / 256 % 256 ≠
              (((cpu.program_counter + 2) % 65536 + i8_as_u16 off) % 65536) / 256 % 256
            then 1 else 0)) ∧
    handle_beq cpu (some off) oa = some (cpu.branch (cpu.get_status_flag .Zero) off) ∧
    handle_bne cpu (some off) oa = some (cpu.branch (!cpu.get_status_flag .Zero) off) ∧
    handle_bcs cpu (some off) oa = some (cpu.branch (cpu.get_status_flag .Carry) off) ∧
    handle_bcc cpu (some off) oa = some (cpu.branch (!cpu.get_status_flag .Carry) off) ∧
    handle_bmi cpu (some off) oa = some (cpu.branch (cpu.get_status_flag .Negative) off) ∧
    handle_bpl cpu (some off) oa = some (cpu.branch (!cpu.get_status_flag .Negative) off) ∧
    handle_bvs cpu (some off) oa = some (cpu.branch (cpu.get_status_flag .Overflow) off) ∧
    handle_bvc cpu (some off) oa = some (cpu.branch (!cpu.get_status_flag .Overflow) off) := by
  refine ⟨?_, ?_, rfl, rfl, rfl, rfl, rfl, rfl, rfl, rfl⟩
  · intro hc
    subst hc
    unfold CPU.branch
    rw [if_neg Bool.false_ne_true]
  · intro hc
    subst hc
    unfold CPU.branch
    rw [if_pos rfl]
    refine congrArg (Prod.mk _) ?_
    refine congrArg (fun z => 1 + z) ?_
    rw [page_crossed_iff]
    by_cases hP : ((cpu.program_counter + 2) % 65536) / 256 % 256 ≠
        (((cpu.program_counter + 2) % 65536 + i8_as_u16 off) % 65536) / 256 % 256
    · rw [decide_eq_true hP, if_pos hP, if_pos rfl]
    · rw [decide_eq_false hP, if_neg hP, if_neg Bool.false_ne_true]

/-- Witness for C7: `BEQ +$10` at PC = $10FD with Z = 1 lands on PC = $110F
with 2 extra cycles (taken + page cross), and the full loop iteration pays
2 + 2 cycles. -/
theorem c7_branch_semantics_witness :
    beqCpu.branch true 0x10 = ({ beqCpu with program_counter := 0x110F }, 2) ∧
    handle_beq beqCpu (some 0x10) none =
      some ({ beqCpu with program_counter := 0x110F }, 2) ∧
    step beqCpu = some beqCpuAfter := by
  have h := c7_branch_semantics beqCpu true 0x10 none
  have hb : beqCpu.branch true 0x10 = ({ beqCpu with program_counter := 0x110F }, 2) := by
    rw [h.2.1 rfl]
    have e1 : ((beqCpu.program_counter + 2) % 65536 + i8_as_u16 0x10) % 65536 = 0x110F := by
      decide
    have e2 : (1 + if (beqCpu.program_counter + 2) % 65536 / 256 % 256 ≠
        ((beqCpu.program_counter + 2) % 65536 + i8_as_u16 0x10) % 65536 / 256 % 256
        then 1 else 0) = 2 := by decide
    rw [e2, e1]
  refine ⟨hb, ?_, rfl⟩
  have hz : beqCpu.get_status_flag .Zero = true := by decide
  have hbeq := h.2.2.1
  rw [hz] at hbeq
  rw [hbeq, hb]
